import Mathlib

/-!
Verification of the Gonzales Tax Platform computation engine
(`src/calculations/tax_engine.py`, `src/models/tax_return.py`,
`src/core/config.py`) against its natural-language specification.

Monetary amounts are modelled as exact rationals (the source uses
arbitrary-precision `Decimal` fixed-point arithmetic).  Python's
`Decimal.quantize(..., ROUND_HALF_UP)` rounds to the nearest multiple
with ties going away from zero; `gaap_round` quantizes to two decimal
places with that mode.
-/

namespace GonzalesTax

/-- Round to the nearest integer, ties away from zero
(Python `Decimal.quantize(Decimal("1"), rounding=ROUND_HALF_UP)`). -/
def rhu (x : ℚ) : ℚ :=
  if 0 ≤ x then ((⌊x + 1/2⌋ : ℤ) : ℚ) else -((⌊-x + 1/2⌋ : ℤ) : ℚ)

/-- `gaap_round` from `models/tax_return.py`: quantize to 2 decimal places,
`ROUND_HALF_UP` (ties away from zero). -/
def gaap_round (x : ℚ) : ℚ := rhu (x * 100) / 100

/-- A rational that is a whole number of cents. -/
def IsCents (x : ℚ) : Prop := ∃ k : ℤ, x = (k : ℚ) / 100

-- ===========================================
-- ENUMERATIONS (models/tax_return.py)
-- ===========================================

inductive FilingStatus
  | single
  | marriedFilingJointly
  | marriedFilingSeparately
  | headOfHousehold
  | qualifyingWidow
  deriving DecidableEq, Repr

/-- The string value of each `FilingStatus` enum member. -/
def FilingStatus.value : FilingStatus → String
  | .single => "single"
  | .marriedFilingJointly => "married_filing_jointly"
  | .marriedFilingSeparately => "married_filing_separately"
  | .headOfHousehold => "head_of_household"
  | .qualifyingWidow => "qualifying_widow"

inductive DeductionType
  | standard
  | itemized
  deriving DecidableEq, Repr

def DeductionType.value : DeductionType → String
  | .standard => "standard"
  | .itemized => "itemized"

-- ===========================================
-- TAXPAYER / DEPENDENT (models/tax_return.py)
-- Identity fields (names, SSN, address, ...) are not read by the
-- calculation engine and are omitted from this embedding.
-- ===========================================

structure DateOfBirth where
  year : ℤ
  month : ℕ
  day : ℕ

structure TaxpayerInfo where
  date_of_birth : DateOfBirth
  is_blind : Bool := false

/-- `TaxpayerInfo.age_at_year_end`: age at Dec 31 of the (hard-coded) 2025
tax year; one less if the birthday has not yet occurred by year end
(Python tuple comparison `(12, 31) < (dob.month, dob.day)`). -/
def TaxpayerInfo.age_at_year_end (t : TaxpayerInfo) : ℤ :=
  let a := 2025 - t.date_of_birth.year
  if 12 < t.date_of_birth.month ∨
      (12 = t.date_of_birth.month ∧ 31 < t.date_of_birth.day) then a - 1 else a

structure Dependent where
  is_qualifying_child : Bool := false
  is_qualifying_relative : Bool := false
  qualifies_for_ctc : Bool := false
  qualifies_for_odc : Bool := false

-- ===========================================
-- INCOME MODELS (models/tax_return.py)
-- ===========================================

/-- Form W-2 (boxes not read by the engine are omitted). -/
structure W2Income where
  box_1_wages : ℚ := 0
  box_2_federal_withheld : ℚ := 0

structure Form1099 where
  form_type : String
  amount : ℚ := 0
  federal_withheld : ℚ := 0

/-- Schedule C self-employment income. -/
structure SelfEmploymentIncome where
  gross_receipts : ℚ := 0
  returns_and_allowances : ℚ := 0
  other_income : ℚ := 0
  cost_of_goods_sold : ℚ := 0
  advertising : ℚ := 0
  car_and_truck : ℚ := 0
  commissions : ℚ := 0
  contract_labor : ℚ := 0
  depreciation : ℚ := 0
  insurance : ℚ := 0
  interest_mortgage : ℚ := 0
  interest_other : ℚ := 0
  legal_professional : ℚ := 0
  office_expense : ℚ := 0
  pension_profit_sharing : ℚ := 0
  rent_lease_vehicles : ℚ := 0
  rent_lease_equipment : ℚ := 0
  repairs_maintenance : ℚ := 0
  supplies : ℚ := 0
  taxes_licenses : ℚ := 0
  travel : ℚ := 0
  meals : ℚ := 0
  utilities : ℚ := 0
  wages : ℚ := 0
  other_expenses : ℚ := 0
  home_office_deduction : ℚ := 0

def SelfEmploymentIncome.gross_income (se : SelfEmploymentIncome) : ℚ :=
  gaap_round (se.gross_receipts - se.returns_and_allowances +
    se.other_income - se.cost_of_goods_sold)

def SelfEmploymentIncome.total_expenses (se : SelfEmploymentIncome) : ℚ :=
  gaap_round (se.advertising + se.car_and_truck + se.commissions +
    se.contract_labor + se.depreciation + se.insurance +
    se.interest_mortgage + se.interest_other + se.legal_professional +
    se.office_expense + se.pension_profit_sharing +
    se.rent_lease_vehicles + se.rent_lease_equipment +
    se.repairs_maintenance + se.supplies + se.taxes_licenses +
    se.travel + se.meals * (1/2) + se.utilities +
    se.wages + se.other_expenses + se.home_office_deduction)

def SelfEmploymentIncome.net_profit (se : SelfEmploymentIncome) : ℚ :=
  gaap_round (se.gross_income - se.total_expenses)

-- ===========================================
-- ITEMIZED DEDUCTIONS (models/tax_return.py)
-- ===========================================

structure ItemizedDeductions where
  medical_dental_expenses : ℚ := 0
  state_local_income_tax : ℚ := 0
  state_local_sales_tax : ℚ := 0
  real_estate_taxes : ℚ := 0
  personal_property_taxes : ℚ := 0
  other_taxes : ℚ := 0
  mortgage_interest : ℚ := 0
  mortgage_points : ℚ := 0
  investment_interest : ℚ := 0
  auto_loan_interest : ℚ := 0
  cash_contributions : ℚ := 0
  noncash_contributions : ℚ := 0
  carryover_contributions : ℚ := 0
  casualty_theft_losses : ℚ := 0
  gambling_losses : ℚ := 0
  other_deductions : ℚ := 0

/-- SALT total, capped at the OBBBA $40,000 ceiling. -/
def ItemizedDeductions.total_salt (d : ItemizedDeductions) : ℚ :=
  min (gaap_round (d.state_local_income_tax + d.state_local_sales_tax +
    d.real_estate_taxes + d.personal_property_taxes)) 40000

def ItemizedDeductions.total_interest (d : ItemizedDeductions) : ℚ :=
  gaap_round (d.mortgage_interest + d.mortgage_points +
    d.investment_interest + min d.auto_loan_interest 10000)

def ItemizedDeductions.total_charitable (d : ItemizedDeductions) : ℚ :=
  gaap_round (d.cash_contributions + d.noncash_contributions +
    d.carryover_contributions)

-- ===========================================
-- TAX CREDITS (models/tax_return.py)
-- ===========================================

structure TaxCredits where
  child_tax_credit : ℚ := 0
  child_tax_credit_refundable : ℚ := 0
  other_dependent_credit : ℚ := 0
  earned_income_credit : ℚ := 0
  american_opportunity_credit : ℚ := 0
  lifetime_learning_credit : ℚ := 0
  retirement_savings_credit : ℚ := 0
  child_dependent_care_credit : ℚ := 0
  foreign_tax_credit : ℚ := 0
  residential_energy_credit : ℚ := 0
  electric_vehicle_credit : ℚ := 0
  other_credits : ℚ := 0

def TaxCredits.total_nonrefundable (c : TaxCredits) : ℚ :=
  gaap_round (c.child_tax_credit + c.other_dependent_credit +
    c.american_opportunity_credit + c.lifetime_learning_credit +
    c.retirement_savings_credit + c.child_dependent_care_credit +
    c.foreign_tax_credit + c.residential_energy_credit +
    c.electric_vehicle_credit + c.other_credits)

/-- Refundable total; 40% of the American Opportunity credit is refundable. -/
def TaxCredits.total_refundable (c : TaxCredits) : ℚ :=
  gaap_round (c.child_tax_credit_refundable + c.earned_income_credit +
    c.american_opportunity_credit * (40/100))

-- ===========================================
-- MAIN TAX RETURN MODEL (models/tax_return.py)
-- Persistence / e-file metadata fields are not read by the engine and
-- are omitted.  The derived "calculated" fields written back by the
-- CRUD layer are likewise external to the engine.
-- ===========================================

structure TaxReturn where
  filing_status : FilingStatus := .single
  taxpayer : TaxpayerInfo
  spouse : Option TaxpayerInfo := none
  dependents : List Dependent := []
  w2_income : List W2Income := []
  form_1099s : List Form1099 := []
  self_employment : List SelfEmploymentIncome := []
  tip_income : ℚ := 0
  overtime_income : ℚ := 0
  social_security_income : ℚ := 0
  capital_gains_short : ℚ := 0
  capital_gains_long : ℚ := 0
  rental_income : ℚ := 0
  other_income : ℚ := 0
  educator_expenses : ℚ := 0
  hsa_deduction : ℚ := 0
  self_employment_tax_deduction : ℚ := 0
  self_employment_health_insurance : ℚ := 0
  sep_simple_qualified : ℚ := 0
  student_loan_interest : ℚ := 0
  ira_deduction : ℚ := 0
  itemized_deductions : Option ItemizedDeductions := none
  credits : TaxCredits := {}
  estimated_payments : ℚ := 0
  amount_paid_with_extension : ℚ := 0

def TaxReturn.qualifying_children_count (tr : TaxReturn) : ℕ :=
  (tr.dependents.filter (·.qualifies_for_ctc)).length

def TaxReturn.other_dependents_count (tr : TaxReturn) : ℕ :=
  (tr.dependents.filter (·.qualifies_for_odc)).length

def TaxReturn.is_senior (tr : TaxReturn) : Bool :=
  65 ≤ tr.taxpayer.age_at_year_end

def TaxReturn.total_w2_wages (tr : TaxReturn) : ℚ :=
  gaap_round ((tr.w2_income.map (·.box_1_wages)).sum)

def TaxReturn.total_federal_withheld (tr : TaxReturn) : ℚ :=
  gaap_round ((tr.w2_income.map (·.box_2_federal_withheld)).sum +
    (tr.form_1099s.map (·.federal_withheld)).sum)

-- ===========================================
-- RATE TABLES (core/config.py)
-- A bracket is an (upper bound, marginal rate) pair; `none` encodes the
-- terminal `float("inf")` upper bound.
-- ===========================================

def bracketsSingle : List (Option ℚ × ℚ) :=
  [(some 11600, 10/100), (some 47150, 12/100), (some 100525, 22/100),
   (some 191950, 24/100), (some 243725, 32/100), (some 609350, 35/100),
   (none, 37/100)]

def bracketsMFJ : List (Option ℚ × ℚ) :=
  [(some 23200, 10/100), (some 94300, 12/100), (some 201050, 22/100),
   (some 383900, 24/100), (some 487450, 32/100), (some 731200, 35/100),
   (none, 37/100)]

def bracketsMFS : List (Option ℚ × ℚ) :=
  [(some 11600, 10/100), (some 47150, 12/100), (some 100525, 22/100),
   (some 191950, 24/100), (some 243725, 32/100), (some 365600, 35/100),
   (none, 37/100)]

def bracketsHOH : List (Option ℚ × ℚ) :=
  [(some 16550, 10/100), (some 63100, 12/100), (some 100500, 22/100),
   (some 191950, 24/100), (some 243700, 32/100), (some 609350, 35/100),
   (none, 37/100)]

/-- `TAX_BRACKETS_2025`: string-keyed bracket dictionary. -/
def TAX_BRACKETS_2025 : List (String × List (Option ℚ × ℚ)) :=
  [("single", bracketsSingle),
   ("married_filing_jointly", bracketsMFJ),
   ("married_filing_separately", bracketsMFS),
   ("head_of_household", bracketsHOH)]

/-- `STANDARD_DEDUCTIONS_2025`: string-keyed standard deduction table.
Note the key `"qualified_widow"`, which differs from the enum value
`"qualifying_widow"` of `FilingStatus.QUALIFYING_WIDOW`. -/
def STANDARD_DEDUCTIONS_2025 : List (String × ℚ) :=
  [("single", 14600),
   ("married_filing_jointly", 29200),
   ("married_filing_separately", 14600),
   ("head_of_household", 21900),
   ("qualified_widow", 29200)]

def ADDITIONAL_STANDARD_DEDUCTION_single : ℚ := 1950
def ADDITIONAL_STANDARD_DEDUCTION_married : ℚ := 1550

/-- Python `dict.get(key, default)` over an association list. -/
def dictGet {α : Type} (m : List (String × α)) (key : String) (dflt : α) : α :=
  ((m.find? (fun p => p.1 == key)).map Prod.snd).getD dflt

/-- `Settings.SUPPORTED_TAX_YEARS` from `core/config.py`. -/
def SUPPORTED_TAX_YEARS : List ℤ := [2023, 2024, 2025]

-- ===========================================
-- OBBBA PROVISION CONSTANTS (calculations/tax_engine.py)
-- ===========================================

def CTC_AMOUNT : ℚ := 2200
def CTC_REFUNDABLE : ℚ := 1700
def CTC_PHASEOUT_SINGLE : ℚ := 200000
def CTC_PHASEOUT_JOINT : ℚ := 400000
def CTC_PHASEOUT_RATE : ℚ := 50
def TIPS_DEDUCTION_MAX : ℚ := 25000
def TIPS_PHASEOUT_SINGLE : ℚ := 160000
def TIPS_PHASEOUT_JOINT : ℚ := 320000
def OVERTIME_DEDUCTION_MAX_HOURLY : ℚ := 10000
def OVERTIME_SALARY_THRESHOLD : ℚ := 100000
def SENIOR_DEDUCTION : ℚ := 6000

-- ===========================================
-- TAX ENGINE (calculations/tax_engine.py)
-- The engine's calculations read only the 2025 tables above; the
-- `tax_year` passed to `TaxEngine.__init__` is stored but never used.
-- ===========================================

/-- `TaxEngine.calculate_gross_income`: IRC Section 61 gross income.
Social Security benefits contribute zero (`SS_TAX_EXEMPT` is `True`). -/
def calculate_gross_income (tr : TaxReturn) : ℚ :=
  let w2_total := (tr.w2_income.map (·.box_1_wages)).sum
  let se_total := (tr.self_employment.map (·.net_profit)).sum
  let interest_income :=
    ((tr.form_1099s.filter (·.form_type == "1099-INT")).map (·.amount)).sum
  let dividend_income :=
    ((tr.form_1099s.filter (·.form_type == "1099-DIV")).map (·.amount)).sum
  let other_1099 :=
    ((tr.form_1099s.filter
        (fun f => ¬(f.form_type == "1099-INT" ∨ f.form_type == "1099-DIV"))).map
      (·.amount)).sum
  gaap_round (w2_total + se_total + tr.tip_income + tr.overtime_income +
    interest_income + dividend_income + other_1099 +
    tr.capital_gains_short + tr.capital_gains_long +
    tr.rental_income + 0 + tr.other_income)

/-- Total self-employment net profit (the sum the engine takes in
`_calculate_self_employment_tax`, `calculate_gross_income`, ...). -/
def se_profit_total (tr : TaxReturn) : ℚ :=
  (tr.self_employment.map (·.net_profit)).sum

/-- `TaxEngine._calculate_self_employment_tax`. -/
def calculate_self_employment_tax (tr : TaxReturn) : ℚ :=
  let se_income := se_profit_total tr
  if se_income ≤ 0 then 0
  else
    let net_se_earnings := gaap_round (se_income * (9235/10000))
    let ss_tax := gaap_round (min net_se_earnings 168600 * (124/1000))
    let medicare_tax := gaap_round (net_se_earnings * (29/1000))
    gaap_round (ss_tax + medicare_tax)

/-- `TaxEngine._calculate_tips_deduction`. -/
def calculate_tips_deduction (tip_income gross_income : ℚ)
    (filing_status : FilingStatus) : ℚ :=
  if tip_income ≤ 0 then 0
  else
    let threshold := if filing_status = .marriedFilingJointly
      then TIPS_PHASEOUT_JOINT else TIPS_PHASEOUT_SINGLE
    let base_deduction := min tip_income TIPS_DEDUCTION_MAX
    let base_deduction :=
      if threshold < gross_income then
        max (base_deduction - gaap_round ((gross_income - threshold) * (10/100))) 0
      else base_deduction
    gaap_round base_deduction

/-- `TaxEngine._calculate_overtime_deduction`: zero entirely once total
W-2 wages reach the $100,000 threshold (hard cliff). -/
def calculate_overtime_deduction (overtime_income total_wages : ℚ)
    (_filing_status : FilingStatus) : ℚ :=
  if overtime_income ≤ 0 then 0
  else if OVERTIME_SALARY_THRESHOLD ≤ total_wages then 0
  else gaap_round (min overtime_income OVERTIME_DEDUCTION_MAX_HOURLY)

/-- `TaxEngine.calculate_adjustments`: above-the-line deductions. -/
def calculate_adjustments (tr : TaxReturn) : ℚ :=
  let se_tax := calculate_self_employment_tax tr
  gaap_round (min tr.educator_expenses 300 + tr.hsa_deduction +
    gaap_round (se_tax * (1/2)) +
    tr.self_employment_health_insurance + tr.sep_simple_qualified +
    min tr.student_loan_interest 2500 + tr.ira_deduction +
    calculate_tips_deduction tr.tip_income (calculate_gross_income tr)
      tr.filing_status +
    calculate_overtime_deduction tr.overtime_income tr.total_w2_wages
      tr.filing_status)

/-- `TaxEngine.calculate_agi`. -/
def calculate_agi (tr : TaxReturn) : ℚ :=
  gaap_round (calculate_gross_income tr - calculate_adjustments tr)

/-- Base standard deduction: string-keyed dictionary lookup with a
silent default of 14600 (`STANDARD_DEDUCTIONS_2025.get(filing_key, 14600)`). -/
def base_standard_deduction (fs : FilingStatus) : ℚ :=
  dictGet STANDARD_DEDUCTIONS_2025 fs.value 14600

/-- `TaxEngine._calculate_standard_deduction`. -/
def calculate_standard_deduction (tr : TaxReturn) : ℚ :=
  let base_deduction := base_standard_deduction tr.filing_status
  let additional : ℚ :=
    (if 65 ≤ tr.taxpayer.age_at_year_end then
      (if tr.filing_status = .single ∨ tr.filing_status = .headOfHousehold
        then ADDITIONAL_STANDARD_DEDUCTION_single
        else ADDITIONAL_STANDARD_DEDUCTION_married) else 0) +
    (if tr.taxpayer.is_blind then
      (if tr.filing_status = .single ∨ tr.filing_status = .headOfHousehold
        then ADDITIONAL_STANDARD_DEDUCTION_single
        else ADDITIONAL_STANDARD_DEDUCTION_married) else 0) +
    (match tr.spouse with
      | some sp =>
        if tr.filing_status = .marriedFilingJointly then
          (if 65 ≤ sp.age_at_year_end
            then ADDITIONAL_STANDARD_DEDUCTION_married else 0) +
          (if sp.is_blind then ADDITIONAL_STANDARD_DEDUCTION_married else 0)
        else 0
      | none => 0) +
    (if tr.is_senior then SENIOR_DEDUCTION else 0)
  gaap_round (base_deduction + additional)

/-- `TaxEngine._calculate_itemized_deductions`. -/
def calculate_itemized_deductions (itemized : ItemizedDeductions) (agi : ℚ) : ℚ :=
  let medical_floor := gaap_round (agi * (75/1000))
  let medical_deduction := max (itemized.medical_dental_expenses - medical_floor) 0
  let max_charitable := gaap_round (agi * (60/100))
  let charitable := min itemized.total_charitable max_charitable
  gaap_round (medical_deduction + itemized.total_salt + itemized.total_interest +
    charitable + itemized.casualty_theft_losses + itemized.gambling_losses +
    itemized.other_deductions)

/-- `TaxEngine.calculate_deduction`: the larger of standard and itemized
(itemized only when supplied; ties go to standard). -/
def calculate_deduction (tr : TaxReturn) : ℚ × DeductionType :=
  let standard := calculate_standard_deduction tr
  match tr.itemized_deductions with
  | none => (standard, .standard)
  | some itd =>
    let itemized := calculate_itemized_deductions itd (calculate_agi tr)
    if standard < itemized then (itemized, .itemized) else (standard, .standard)

/-- `TaxEngine._calculate_qbi_deduction`: 20% of positive pass-through
income; the high-income phase-out branch in the source is a `pass`. -/
def calculate_qbi_deduction (tr : TaxReturn) (_agi : ℚ) : ℚ :=
  match tr.self_employment with
  | [] => 0
  | _ =>
    let qbi := ((tr.self_employment.filter (fun se => 0 < se.net_profit)).map
      (·.net_profit)).sum
    if qbi ≤ 0 then 0
    else gaap_round (qbi * (20/100))

/-- `TaxEngine.calculate_taxable_income`. -/
def calculate_taxable_income (tr : TaxReturn) : ℚ :=
  let agi := calculate_agi tr
  let deduction := (calculate_deduction tr).1
  let qbi_deduction := calculate_qbi_deduction tr agi
  gaap_round (max (agi - deduction - qbi_deduction) 0)

/-- One pass of the bracket loop in `TaxEngine._calculate_bracket_tax`:
each bracket's contribution is rounded before being accumulated.  A
`none` upper bound is the terminal `float("inf")` bracket: after it the
Python loop's `taxable_income <= previous_threshold` check always breaks. -/
def bracket_tax_aux (x : ℚ) : ℚ → List (Option ℚ × ℚ) → ℚ
  | _, [] => 0
  | prev, (some t, r) :: rest =>
    if x ≤ prev then 0
    else
      (if 0 < min x t - prev then gaap_round ((min x t - prev) * r) else 0) +
        bracket_tax_aux x t rest
  | prev, (none, r) :: _ =>
    if x ≤ prev then 0
    else if 0 < x - prev then gaap_round ((x - prev) * r) else 0

/-- `TaxEngine._calculate_bracket_tax`: progressive bracket tax.  The
bracket dictionary lookup falls back to the `"single"` schedule for any
filing-status string not in the table. -/
def calculate_bracket_tax (taxable_income : ℚ) (filing_status : FilingStatus) : ℚ :=
  if taxable_income ≤ 0 then 0
  else
    gaap_round (bracket_tax_aux taxable_income 0
      (dictGet TAX_BRACKETS_2025 filing_status.value bracketsSingle))

/-- `TaxEngine._calculate_capital_gains_tax`: 0%/15%/20% step function
keyed off taxable income. -/
def calculate_capital_gains_tax (long_term_gains taxable_income : ℚ)
    (filing_status : FilingStatus) : ℚ :=
  if long_term_gains ≤ 0 then 0
  else
    let zero_rate_max : ℚ :=
      if filing_status = .single then 47025
      else if filing_status = .marriedFilingJointly then 94050
      else 47025
    let fifteen_rate_max : ℚ :=
      if filing_status = .single then 518900
      else if filing_status = .marriedFilingJointly then 583750
      else 291850
    if taxable_income ≤ zero_rate_max then 0
    else if taxable_income ≤ fifteen_rate_max then
      gaap_round (long_term_gains * (15/100))
    else gaap_round (long_term_gains * (20/100))

/-- `TaxEngine._calculate_niit`: net investment income tax (3.8%). -/
def calculate_niit (tr : TaxReturn) : ℚ :=
  let threshold : ℚ := if tr.filing_status = .single then 200000 else 250000
  let agi := calculate_agi tr
  if agi ≤ threshold then 0
  else
    let investment_income :=
      ((tr.form_1099s.filter (·.form_type == "1099-INT")).map (·.amount)).sum +
      ((tr.form_1099s.filter (·.form_type == "1099-DIV")).map (·.amount)).sum +
      tr.capital_gains_short + tr.capital_gains_long + tr.rental_income
    gaap_round (min investment_income (agi - threshold) * (38/1000))

/-- `TaxEngine._calculate_additional_medicare_tax` (0.9%). -/
def calculate_additional_medicare_tax (tr : TaxReturn) : ℚ :=
  let threshold : ℚ := if tr.filing_status = .single then 200000 else 250000
  let total_wages := tr.total_w2_wages + se_profit_total tr
  if total_wages ≤ threshold then 0
  else gaap_round ((total_wages - threshold) * (9/1000))

/-- `TaxEngine.calculate_tax_liability`: sum of the five pieces. -/
def calculate_tax_liability (tr : TaxReturn) : ℚ :=
  let taxable_income := calculate_taxable_income tr
  gaap_round (calculate_bracket_tax taxable_income tr.filing_status +
    calculate_self_employment_tax tr +
    calculate_capital_gains_tax tr.capital_gains_long taxable_income
      tr.filing_status +
    calculate_niit tr + calculate_additional_medicare_tax tr)

/-- `TaxEngine.calculate_child_tax_credit`: returns
(total credit, refundable portion).  The phaseout step count is
`(excess / 1000).quantize(Decimal("1"), ROUND_HALF_UP)` — nearest
integer, ties away from zero. -/
def calculate_child_tax_credit (tr : TaxReturn) : ℚ × ℚ :=
  let num_children := tr.qualifying_children_count
  if num_children = 0 then (0, 0)
  else
    let agi := calculate_agi tr
    let base_credit := CTC_AMOUNT * num_children
    let base_refundable := CTC_REFUNDABLE * num_children
    let threshold := if tr.filing_status = .marriedFilingJointly
      then CTC_PHASEOUT_JOINT else CTC_PHASEOUT_SINGLE
    if threshold < agi then
      let reduction := gaap_round (rhu ((agi - threshold) / 1000) * CTC_PHASEOUT_RATE)
      let base_credit := max (base_credit - reduction) 0
      let base_refundable := min base_refundable base_credit
      (gaap_round base_credit, gaap_round base_refundable)
    else (gaap_round base_credit, gaap_round base_refundable)

/-- The earned income used by `TaxEngine._calculate_eic`. -/
def eic_earned_income (tr : TaxReturn) : ℚ :=
  tr.total_w2_wages + se_profit_total tr

/-- The (AGI ceiling, maximum credit) pair selected by
`TaxEngine._calculate_eic` from filing status and child count. -/
def eic_params (tr : TaxReturn) : ℚ × ℚ :=
  let num_children := tr.qualifying_children_count
  if tr.filing_status = .marriedFilingJointly then
    if 3 ≤ num_children then (63398, 7830)
    else if num_children = 2 then (59478, 6960)
    else if num_children = 1 then (53120, 4213)
    else (24210, 632)
  else
    if 3 ≤ num_children then (56838, 7830)
    else if num_children = 2 then (52918, 6960)
    else if num_children = 1 then (46560, 4213)
    else (17640, 632)

/-- `TaxEngine._calculate_eic`: simplified earned income credit. -/
def calculate_eic (tr : TaxReturn) : ℚ :=
  let agi := calculate_agi tr
  if eic_earned_income tr ≤ 0 then 0
  else
    let p := eic_params tr
    if p.1 < agi then 0
    else gaap_round (p.2 * (1 - agi / p.1))

/-- `TaxEngine.calculate_credits`: builds the computed `TaxCredits`.
(The `if tax_return.credits:` guard in the source is always true — a
pydantic model instance is truthy — so the caller credits are always
copied.) -/
def calculate_credits (tr : TaxReturn) : TaxCredits :=
  let ctc := calculate_child_tax_credit tr
  { child_tax_credit := ctc.1 - ctc.2
    child_tax_credit_refundable := ctc.2
    other_dependent_credit := gaap_round (500 * tr.other_dependents_count)
    earned_income_credit := calculate_eic tr
    american_opportunity_credit := tr.credits.american_opportunity_credit
    lifetime_learning_credit := tr.credits.lifetime_learning_credit
    retirement_savings_credit := tr.credits.retirement_savings_credit
    child_dependent_care_credit := tr.credits.child_dependent_care_credit
    foreign_tax_credit := tr.credits.foreign_tax_credit
    residential_energy_credit := tr.credits.residential_energy_credit
    electric_vehicle_credit := tr.credits.electric_vehicle_credit
    other_credits := tr.credits.other_credits }

/-- Tax after nonrefundable credits (floored at zero), as computed inside
`TaxEngine.calculate_final_tax`. -/
def tax_after_nonrefundable (tr : TaxReturn) : ℚ :=
  max (calculate_tax_liability tr - (calculate_credits tr).total_nonrefundable) 0

/-- Total payments: withholding + estimated + extension + refundable
credits, as computed inside `TaxEngine.calculate_final_tax`. -/
def total_payments_of (tr : TaxReturn) : ℚ :=
  tr.total_federal_withheld + tr.estimated_payments +
    tr.amount_paid_with_extension + (calculate_credits tr).total_refundable

/-- The final settlement branch of `TaxEngine.calculate_final_tax`:
`(refund, amount_owed)` before the output map's `gaap_round`. -/
def settle (tax_after payments : ℚ) : ℚ × ℚ :=
  if tax_after ≤ payments then (payments - tax_after, 0)
  else (0, tax_after - payments)

/-- The output map of `TaxEngine.calculate_final_tax` (dict of named
decimal fields). -/
structure FinalTax where
  gross_income : ℚ
  adjustments : ℚ
  adjusted_gross_income : ℚ
  deduction_type : String
  deduction_amount : ℚ
  taxable_income : ℚ
  tax_liability : ℚ
  total_nonrefundable_credits : ℚ
  total_refundable_credits : ℚ
  tax_after_credits : ℚ
  total_payments : ℚ
  federal_withheld : ℚ
  estimated_payments : ℚ
  refund_amount : ℚ
  amount_owed : ℚ
  tips_deduction : ℚ
  overtime_deduction : ℚ
  child_tax_credit : ℚ

/-- `TaxEngine.calculate_final_tax`. -/
def calculate_final_tax (tr : TaxReturn) : FinalTax :=
  let gross_income := calculate_gross_income tr
  let credits := calculate_credits tr
  let tax_after := tax_after_nonrefundable tr
  let total_payments := total_payments_of tr
  let s := settle tax_after total_payments
  { gross_income := gaap_round gross_income
    adjustments := gaap_round (calculate_adjustments tr)
    adjusted_gross_income := gaap_round (calculate_agi tr)
    deduction_type := (calculate_deduction tr).2.value
    deduction_amount := gaap_round (calculate_deduction tr).1
    taxable_income := gaap_round (calculate_taxable_income tr)
    tax_liability := gaap_round (calculate_tax_liability tr)
    total_nonrefundable_credits := gaap_round credits.total_nonrefundable
    total_refundable_credits := gaap_round credits.total_refundable
    tax_after_credits := gaap_round tax_after
    total_payments := gaap_round total_payments
    federal_withheld := gaap_round tr.total_federal_withheld
    estimated_payments := gaap_round tr.estimated_payments
    refund_amount := gaap_round s.1
    amount_owed := gaap_round s.2
    tips_deduction := calculate_tips_deduction tr.tip_income gross_income
      tr.filing_status
    overtime_deduction := calculate_overtime_deduction tr.overtime_income
      tr.total_w2_wages tr.filing_status
    child_tax_credit := credits.child_tax_credit +
      credits.child_tax_credit_refundable }

/-- `TaxEngine`: the constructor stores the requested tax year without
validating it against `SUPPORTED_TAX_YEARS`; no calculation reads it. -/
structure TaxEngine where
  tax_year : ℤ

/-- `calculate_final_tax` as a method of the engine: the stored
`tax_year` is never consulted. -/
def TaxEngine.final_tax (_e : TaxEngine) (tr : TaxReturn) : FinalTax :=
  calculate_final_tax tr

/-- `calculate_final_tax` as a state transformer on the return aggregate:
the Python method binds only local names and returns a fresh dict; no
statement assigns to any attribute of `tax_return`, so the state
component is returned unchanged. -/
def calculate_final_tax_st (tr : TaxReturn) : TaxReturn × FinalTax :=
  (tr, calculate_final_tax tr)

-- ===========================================
-- CONCRETE RETURNS USED AS TEST VECTORS
-- ===========================================

/-- A taxpayer born 1990-01-01 (age 35 at the end of 2025). -/
def tp1990 : TaxpayerInfo := { date_of_birth := ⟨1990, 1, 1⟩ }

/-- Scenario A: single filer, $50,000 W-2 wages, $6,000 withholding. -/
def returnA : TaxReturn :=
  { taxpayer := tp1990,
    w2_income := [{ box_1_wages := 50000, box_2_federal_withheld := 6000 }] }

/-- A qualifying-widow return with no add-ons (age 35, not blind). -/
def widowReturn : TaxReturn :=
  { taxpayer := tp1990, filing_status := .qualifyingWidow }

/-- A return whose only credit is a $1,000 American Opportunity credit,
with $30,000 of other income. -/
def returnC10 : TaxReturn :=
  { taxpayer := tp1990, other_income := 30000,
    credits := { american_opportunity_credit := 1000 } }


/-- A dependent qualifying for the child tax credit. -/
def childCTC : Dependent := { qualifies_for_ctc := true }

/-- MarriedJoint, AGI $400,400, two qualifying children (C1). -/
def returnC1 : TaxReturn :=
  { taxpayer := tp1990, filing_status := .marriedFilingJointly,
    other_income := 400400, dependents := [childCTC, childCTC] }

/-- Scenario D: MarriedJoint, AGI $450,000, two qualifying children. -/
def returnD : TaxReturn :=
  { taxpayer := tp1990, filing_status := .marriedFilingJointly,
    other_income := 450000, dependents := [childCTC, childCTC] }

/-- Scenario B: a Schedule C business with $40,000 gross receipts and no
expenses (net profit $40,000). -/
def seB : SelfEmploymentIncome := { gross_receipts := 40000 }

/-- Scenario B: self-employed filer, net profit $40,000, no W-2. -/
def returnB : TaxReturn := { taxpayer := tp1990, self_employment := [seB] }

/-- A return with negative overtime income (C6 edge case). -/
def returnC6neg : TaxReturn := { taxpayer := tp1990, overtime_income := -1 }

/-- Overtime cliff pair: wages $99,999 with $5,000 overtime income. -/
def returnC6a : TaxReturn :=
  { taxpayer := tp1990, overtime_income := 5000,
    w2_income := [{ box_1_wages := 99999 }] }

/-- Overtime cliff pair: wages $100,000 with $5,000 overtime income. -/
def returnC6b : TaxReturn :=
  { taxpayer := tp1990, overtime_income := 5000,
    w2_income := [{ box_1_wages := 100000 }] }

/-- A return with no income at all: AGI 0, earned income 0 (C7). -/
def returnC7zero : TaxReturn := { taxpayer := tp1990 }

/-- Single filer with $10,000 W-2 wages, no children (C7 witness). -/
def returnC7b : TaxReturn :=
  { taxpayer := tp1990, w2_income := [{ box_1_wages := 10000 }] }

/-- A return with a half-cent estimated payment and one cent of tax after
deduction: taxable income $0.10, liability $0.01 (C3 edge case). -/
def returnC3tie : TaxReturn :=
  { taxpayer := tp1990, other_income := 14600 + 1/10,
    estimated_payments := 1/200 }

-- ===========================================
-- SPEC-SIDE FORMULAS (written from the claims, for comparison with the
-- engine's definitions)
-- ===========================================

/-- The CTC phaseout threshold for a return's filing status, as the spec
states it: $400,000 for MarriedJoint, $200,000 otherwise. -/
def ctc_threshold (tr : TaxReturn) : ℚ :=
  if tr.filing_status = .marriedFilingJointly
    then CTC_PHASEOUT_JOINT else CTC_PHASEOUT_SINGLE

/-- C1 amended formula for the phased-out total credit: reduce by
$50 × (excess / $1,000 rounded half-up to an integer), floored at zero. -/
def ctc_reduced_total (tr : TaxReturn) : ℚ :=
  max (CTC_AMOUNT * tr.qualifying_children_count -
    gaap_round (rhu ((calculate_agi tr - ctc_threshold tr) / 1000) *
      CTC_PHASEOUT_RATE)) 0

-- ===========================================
-- BRACKET-SCHEDULE WELL-FORMEDNESS (for C8)
-- ===========================================

/-- The bracket loop without any rounding: each bracket contributes its
exact `(min x t - prev) * r`. -/
def bracket_exact (x : ℚ) : ℚ → List (Option ℚ × ℚ) → ℚ
  | _, [] => 0
  | prev, (some t, r) :: rest =>
    if x ≤ prev then 0
    else (min x t - prev) * r + bracket_exact x t rest
  | prev, (none, r) :: _ =>
    if x ≤ prev then 0 else (x - prev) * r

/-- Well-formed bracket schedule starting above `prev`: strictly
increasing thresholds, all rates at least `rmin`, terminated by the
infinite bracket. -/
inductive BracketChain (rmin : ℚ) : ℚ → List (Option ℚ × ℚ) → Prop
  | top (prev r : ℚ) : rmin ≤ r → BracketChain rmin prev [(none, r)]
  | cons (prev t r : ℚ) (rest : List (Option ℚ × ℚ)) : rmin ≤ r → prev < t →
      BracketChain rmin t rest → BracketChain rmin prev ((some t, r) :: rest)

/-- `_calculate_bracket_tax` with the bracket list as an explicit
argument (the body of `calculate_bracket_tax` after the dictionary
lookup). -/
def bracket_total (x : ℚ) (L : List (Option ℚ × ℚ)) : ℚ :=
  if x ≤ 0 then 0 else gaap_round (bracket_tax_aux x 0 L)

-- ===========================================
-- PROPERTIES OF THE ROUNDING PRIMITIVE
-- ===========================================

theorem rhu_nonneg (x : ℚ) (h : 0 ≤ x) : 0 ≤ rhu x := by
  rw [rhu, if_pos h]
  have : (0 : ℤ) ≤ ⌊x + 1/2⌋ := Int.le_floor.2 (by push_cast; linarith)
  exact_mod_cast this

theorem rhu_le (x : ℚ) : rhu x ≤ x + 1/2 := by
  rw [rhu]
  split_ifs with h
  · exact Int.floor_le (x + 1/2)
  · have h2 := Int.lt_floor_add_one (-x + 1/2)
    linarith

theorem le_rhu (x : ℚ) : x - 1/2 ≤ rhu x := by
  rw [rhu]
  split_ifs with h
  · have := Int.lt_floor_add_one (x + 1/2)
    linarith
  · have h1 := Int.floor_le (-x + 1/2)
    linarith

theorem rhu_mono {x y : ℚ} (h : x ≤ y) : rhu x ≤ rhu y := by
  rw [rhu, rhu]
  split_ifs with hx hy hy
  · exact_mod_cast Int.floor_le_floor (by linarith)
  · exact absurd (hx.trans h) hy
  · have h1 : (0 : ℤ) ≤ ⌊-x + 1/2⌋ := Int.le_floor.2 (by push_cast; linarith [not_le.1 hx])
    have h2 : (0 : ℤ) ≤ ⌊y + 1/2⌋ := Int.le_floor.2 (by push_cast; linarith)
    have h1q : (0 : ℚ) ≤ (⌊-x + 1/2⌋ : ℚ) := by exact_mod_cast h1
    have h2q : (0 : ℚ) ≤ (⌊y + 1/2⌋ : ℚ) := by exact_mod_cast h2
    linarith
  · have : ⌊-y + 1/2⌋ ≤ ⌊-x + 1/2⌋ := Int.floor_le_floor (by linarith)
    have : ((⌊-y + 1/2⌋ : ℤ) : ℚ) ≤ ((⌊-x + 1/2⌋ : ℤ) : ℚ) := by exact_mod_cast this
    linarith

theorem rhu_neg (x : ℚ) : rhu (-x) = -rhu x := by
  rcases lt_trichotomy x 0 with h | h | h
  · rw [rhu, rhu, if_pos (by linarith : (0:ℚ) ≤ -x), if_neg (not_le.2 h), neg_neg]
  · subst h
    norm_num [rhu]
  · rw [rhu, rhu, if_neg (by intro hc; linarith : ¬(0:ℚ) ≤ -x), if_pos h.le, neg_neg]

theorem rhu_intCast (k : ℤ) : rhu (k : ℚ) = k := by
  have hhalf : ⌊(1:ℚ)/2⌋ = 0 := by norm_num
  rcases le_or_lt 0 k with h | h
  · have h' : (0:ℚ) ≤ (k:ℚ) := by exact_mod_cast h
    rw [rhu, if_pos h', add_comm, Int.floor_add_int, hhalf, Int.cast_add]
    norm_num
  · have h' : ¬(0:ℚ) ≤ (k:ℚ) := not_le.2 (by exact_mod_cast h)
    rw [rhu, if_neg h',
      show -(k : ℚ) + 1/2 = 1/2 + ((-k : ℤ) : ℚ) by push_cast; ring,
      Int.floor_add_int, hhalf]
    push_cast
    ring

theorem rhu_add_int (x : ℚ) (k : ℤ) (hx : 0 ≤ x) (hxk : 0 ≤ x + k) :
    rhu (x + k) = rhu x + k := by
  rw [rhu, rhu, if_pos hxk, if_pos hx,
    show x + (k : ℚ) + 1/2 = (x + 1/2) + (k : ℤ) by ring,
    Int.floor_add_int]
  push_cast
  ring

-- ===========================================
-- PROPERTIES OF gaap_round
-- ===========================================

theorem gaap_round_nonneg (x : ℚ) (h : 0 ≤ x) : 0 ≤ gaap_round x := by
  have := rhu_nonneg (x * 100) (by linarith)
  rw [gaap_round]; linarith

theorem gaap_round_le (x : ℚ) : gaap_round x ≤ x + 1/200 := by
  have := rhu_le (x * 100)
  rw [gaap_round]; linarith

theorem le_gaap_round (x : ℚ) : x - 1/200 ≤ gaap_round x := by
  have := le_rhu (x * 100)
  rw [gaap_round]; linarith

theorem gaap_round_mono {x y : ℚ} (h : x ≤ y) : gaap_round x ≤ gaap_round y := by
  have := rhu_mono (show x * 100 ≤ y * 100 by linarith)
  rw [gaap_round, gaap_round]; linarith

theorem gaap_round_neg (x : ℚ) : gaap_round (-x) = -gaap_round x := by
  rw [gaap_round, gaap_round, show -x * 100 = -(x * 100) by ring, rhu_neg]
  ring

theorem gaap_round_isCents (x : ℚ) : IsCents (gaap_round x) := by
  rw [gaap_round, rhu]
  split_ifs
  · exact ⟨⌊x * 100 + 1/2⌋, rfl⟩
  · exact ⟨-⌊-(x * 100) + 1/2⌋, by push_cast; ring⟩

theorem IsCents.gaap_round_eq {x : ℚ} (h : IsCents x) : gaap_round x = x := by
  obtain ⟨k, rfl⟩ := h
  rw [gaap_round, show (k : ℚ) / 100 * 100 = (k : ℚ) by field_simp, rhu_intCast]

theorem IsCents.zero : IsCents 0 := ⟨0, by norm_num⟩

theorem IsCents.add {x y : ℚ} (hx : IsCents x) (hy : IsCents y) : IsCents (x + y) := by
  obtain ⟨k, rfl⟩ := hx; obtain ⟨m, rfl⟩ := hy
  exact ⟨k + m, by push_cast; ring⟩

theorem IsCents.sub {x y : ℚ} (hx : IsCents x) (hy : IsCents y) : IsCents (x - y) := by
  obtain ⟨k, rfl⟩ := hx; obtain ⟨m, rfl⟩ := hy
  exact ⟨k - m, by push_cast; ring⟩

theorem IsCents.max_cents {x y : ℚ} (hx : IsCents x) (hy : IsCents y) :
    IsCents (max x y) := by
  rcases le_total x y with h | h
  · rw [max_eq_right h]; exact hy
  · rw [max_eq_left h]; exact hx

theorem IsCents.min_cents {x y : ℚ} (hx : IsCents x) (hy : IsCents y) :
    IsCents (min x y) := by
  rcases le_total x y with h | h
  · rw [min_eq_left h]; exact hx
  · rw [min_eq_right h]; exact hy

/-- Subtracting a nonnegative whole-cents amount commutes with
`gaap_round` on amounts at least that large. -/
theorem gaap_round_sub_cents {p t : ℚ} (ht : IsCents t) (ht0 : 0 ≤ t)
    (hpt : t ≤ p) : gaap_round (p - t) = gaap_round p - t := by
  obtain ⟨k, rfl⟩ := ht
  have hk : (0 : ℚ) ≤ (k : ℚ) := by linarith
  have hk' : (0 : ℤ) ≤ k := by exact_mod_cast hk
  rw [gaap_round, gaap_round,
    show (p - (k : ℚ) / 100) * 100 = p * 100 + (-k : ℤ) by push_cast; ring]
  rw [rhu_add_int (p * 100) (-k) (by nlinarith) (by push_cast; nlinarith)]
  push_cast
  ring

-- ===========================================
-- TABLE LOOKUP EVALUATION LEMMAS
-- ===========================================

theorem std_base_single : base_standard_deduction .single = 14600 := rfl

theorem std_base_mfj : base_standard_deduction .marriedFilingJointly = 29200 := rfl

theorem std_base_mfs : base_standard_deduction .marriedFilingSeparately = 14600 := rfl

theorem std_base_hoh : base_standard_deduction .headOfHousehold = 21900 := rfl

/-- The enum value "qualifying_widow" misses the table key
"qualified_widow", so the lookup falls back to the default 14600. -/
theorem std_base_widow : base_standard_deduction .qualifyingWidow = 14600 := rfl

theorem brackets_lookup_single :
    dictGet TAX_BRACKETS_2025 FilingStatus.single.value bracketsSingle = bracketsSingle := rfl

theorem brackets_lookup_mfj :
    dictGet TAX_BRACKETS_2025 FilingStatus.marriedFilingJointly.value bracketsSingle = bracketsMFJ := rfl

theorem brackets_lookup_mfs :
    dictGet TAX_BRACKETS_2025 FilingStatus.marriedFilingSeparately.value bracketsSingle = bracketsMFS := rfl

theorem brackets_lookup_hoh :
    dictGet TAX_BRACKETS_2025 FilingStatus.headOfHousehold.value bracketsSingle = bracketsHOH := rfl

/-- "qualifying_widow" is also missing from the bracket dictionary: the
lookup falls back to the single schedule. -/
theorem brackets_lookup_widow :
    dictGet TAX_BRACKETS_2025 FilingStatus.qualifyingWidow.value bracketsSingle = bracketsSingle := rfl

-- Constructor disequalities used to reduce filing-status branches.

theorem fs_single_ne_mfj :
    FilingStatus.single ≠ FilingStatus.marriedFilingJointly := by decide

theorem fs_widow_ne_mfj :
    FilingStatus.qualifyingWidow ≠ FilingStatus.marriedFilingJointly := by decide

theorem fs_widow_ne_single :
    FilingStatus.qualifyingWidow ≠ FilingStatus.single := by decide

theorem fs_mfj_ne_single :
    FilingStatus.marriedFilingJointly ≠ FilingStatus.single := by decide

-- ===========================================
-- CLAIM C9 — frame property of calculate_final_tax
-- ===========================================

/-- C9: running the full pipeline `calculate_final_tax` never mutates any
raw input field of the return.  The Python method binds only local names
and builds a fresh output dict; in the state-transformer reading of the
method the return aggregate passes through unchanged, and the computed
results are delivered only in the returned map. -/
theorem claim_C9_no_mutation (tr : TaxReturn) :
    (calculate_final_tax_st tr).1 = tr ∧
    (calculate_final_tax_st tr).2 = calculate_final_tax tr :=
  ⟨rfl, rfl⟩

-- ===========================================
-- CLAIM C2 — qualifying-widow standard deduction
-- ===========================================

/-- C2 (refuted — code bug): the claim says the base standard deduction
for `QualifyingWidow` is the table value $29,200 and that the lookup
never falls back to a default.  The table stores that amount under the
key `"qualified_widow"`, but the enum value is `"qualifying_widow"`, so
`STANDARD_DEDUCTIONS_2025.get(filing_key, 14600)` silently returns the
$14,600 default: the $29,200 entry is unreachable. -/
theorem claim_C2_code_divergence :
    FilingStatus.qualifyingWidow.value = "qualifying_widow" ∧
    dictGet STANDARD_DEDUCTIONS_2025 "qualified_widow" 0 = 29200 ∧
    base_standard_deduction .qualifyingWidow = 14600 ∧
    calculate_standard_deduction widowReturn = 14600 := by
  refine ⟨rfl, rfl, std_base_widow, ?_⟩
  norm_num [calculate_standard_deduction, std_base_widow, widowReturn,
    tp1990, TaxpayerInfo.age_at_year_end, TaxReturn.is_senior,
    SENIOR_DEDUCTION, ADDITIONAL_STANDARD_DEDUCTION_single,
    ADDITIONAL_STANDARD_DEDUCTION_married, gaap_round, rhu]

-- ===========================================
-- CLAIM C4 — unsupported tax years
-- ===========================================

set_option maxHeartbeats 2000000 in
/-- C4 (refuted — code bug): the claim says construction/computation for
a year outside {2023, 2024, 2025} fails with a `ConfigurationError`
before any computation.  No such error type exists in the source;
`TaxEngine.__init__` stores the year without consulting
`SUPPORTED_TAX_YEARS`, every calculation ignores it, and a full numeric
result is produced for the unsupported year 1999. -/
theorem claim_C4_no_year_validation :
    (1999 : ℤ) ∉ SUPPORTED_TAX_YEARS ∧
    (∀ (y : ℤ) (tr : TaxReturn),
      (TaxEngine.mk y).final_tax tr = (TaxEngine.mk 2025).final_tax tr) ∧
    ((TaxEngine.mk 1999).final_tax returnA).tax_liability = 4016 ∧
    ((TaxEngine.mk 1999).final_tax returnA).refund_amount = 1984 := by
  refine ⟨by decide, fun y tr => rfl, ?_, ?_⟩ <;>
  · norm_num [TaxEngine.final_tax, calculate_final_tax, settle,
      tax_after_nonrefundable, total_payments_of, calculate_credits,
      calculate_child_tax_credit, calculate_eic, eic_params, eic_earned_income,
      calculate_tax_liability, calculate_bracket_tax, bracket_tax_aux,
      calculate_capital_gains_tax, calculate_niit,
      calculate_additional_medicare_tax, calculate_taxable_income,
      calculate_qbi_deduction, calculate_deduction,
      calculate_standard_deduction,
      calculate_itemized_deductions, calculate_agi, calculate_adjustments,
      calculate_self_employment_tax, se_profit_total, calculate_tips_deduction,
      calculate_overtime_deduction, calculate_gross_income,
      TaxReturn.total_w2_wages, TaxReturn.total_federal_withheld,
      TaxReturn.qualifying_children_count, TaxReturn.other_dependents_count,
      TaxReturn.is_senior, TaxpayerInfo.age_at_year_end,
      TaxCredits.total_nonrefundable, TaxCredits.total_refundable,
      std_base_single, brackets_lookup_single, bracketsSingle, gaap_round, rhu,
      fs_single_ne_mfj,
      CTC_AMOUNT, CTC_REFUNDABLE, CTC_PHASEOUT_SINGLE, CTC_PHASEOUT_JOINT,
      CTC_PHASEOUT_RATE, TIPS_DEDUCTION_MAX, TIPS_PHASEOUT_SINGLE,
      TIPS_PHASEOUT_JOINT, OVERTIME_DEDUCTION_MAX_HOURLY,
      OVERTIME_SALARY_THRESHOLD, SENIOR_DEDUCTION,
      ADDITIONAL_STANDARD_DEDUCTION_single, ADDITIONAL_STANDARD_DEDUCTION_married,
      returnA, tp1990]

-- ===========================================
-- OUTPUT-FIELD PROJECTION LEMMAS
-- ===========================================

theorem final_overtime_field (tr : TaxReturn) :
    (calculate_final_tax tr).overtime_deduction =
      calculate_overtime_deduction tr.overtime_income tr.total_w2_wages
        tr.filing_status := rfl

theorem credits_eic_field (tr : TaxReturn) :
    (calculate_credits tr).earned_income_credit = calculate_eic tr := rfl

theorem final_refund_field (tr : TaxReturn) :
    (calculate_final_tax tr).refund_amount =
      gaap_round (settle (tax_after_nonrefundable tr) (total_payments_of tr)).1 := rfl

theorem final_owed_field (tr : TaxReturn) :
    (calculate_final_tax tr).amount_owed =
      gaap_round (settle (tax_after_nonrefundable tr) (total_payments_of tr)).2 := rfl

theorem final_tax_after_field (tr : TaxReturn) :
    (calculate_final_tax tr).tax_after_credits =
      gaap_round (tax_after_nonrefundable tr) := rfl

theorem final_payments_field (tr : TaxReturn) :
    (calculate_final_tax tr).total_payments =
      gaap_round (total_payments_of tr) := rfl

-- ===========================================
-- CLAIM C10 — American Opportunity credit double counting
-- ===========================================

set_option maxHeartbeats 2000000 in
/-- C10: the American Opportunity education credit is double-counted:
the full amount is in `total_nonrefundable` and 40% of the same amount
is additionally in `total_refundable`, and both flow into the final
settlement.  For the concrete return with a lone $1,000 AOC and $30,000
other income: liability $1,616, nonrefundable credits $1,000 (tax after
credits $616), refundable credits $400 counted as payments, so $216
owed. -/
theorem claim_C10_aoc_double_count :
    (∀ k : ℤ,
      ({ american_opportunity_credit := (k : ℚ)/100 } : TaxCredits).total_nonrefundable
          = (k : ℚ)/100 ∧
      ({ american_opportunity_credit := (k : ℚ)/100 } : TaxCredits).total_refundable
          = gaap_round ((40/100) * ((k : ℚ)/100))) ∧
    (calculate_final_tax returnC10).total_nonrefundable_credits = 1000 ∧
    (calculate_final_tax returnC10).total_refundable_credits = 400 ∧
    (calculate_final_tax returnC10).tax_after_credits = 616 ∧
    (calculate_final_tax returnC10).amount_owed = 216 := by
  have hpipe : (calculate_final_tax returnC10).total_nonrefundable_credits = 1000 ∧
      (calculate_final_tax returnC10).total_refundable_credits = 400 ∧
      (calculate_final_tax returnC10).tax_after_credits = 616 ∧
      (calculate_final_tax returnC10).amount_owed = 216 := by
    norm_num [calculate_final_tax, settle,
      tax_after_nonrefundable, total_payments_of, calculate_credits,
      calculate_child_tax_credit, calculate_eic, eic_params, eic_earned_income,
      calculate_tax_liability, calculate_bracket_tax, bracket_tax_aux,
      calculate_capital_gains_tax, calculate_niit,
      calculate_additional_medicare_tax, calculate_taxable_income,
      calculate_qbi_deduction, calculate_deduction,
      calculate_standard_deduction,
      calculate_itemized_deductions, calculate_agi, calculate_adjustments,
      calculate_self_employment_tax, se_profit_total, calculate_tips_deduction,
      calculate_overtime_deduction, calculate_gross_income,
      TaxReturn.total_w2_wages, TaxReturn.total_federal_withheld,
      TaxReturn.qualifying_children_count, TaxReturn.other_dependents_count,
      TaxReturn.is_senior, TaxpayerInfo.age_at_year_end,
      TaxCredits.total_nonrefundable, TaxCredits.total_refundable,
      std_base_single, brackets_lookup_single, bracketsSingle, gaap_round, rhu,
      fs_single_ne_mfj,
      CTC_AMOUNT, CTC_REFUNDABLE, CTC_PHASEOUT_SINGLE, CTC_PHASEOUT_JOINT,
      CTC_PHASEOUT_RATE, TIPS_DEDUCTION_MAX, TIPS_PHASEOUT_SINGLE,
      TIPS_PHASEOUT_JOINT, OVERTIME_DEDUCTION_MAX_HOURLY,
      OVERTIME_SALARY_THRESHOLD, SENIOR_DEDUCTION,
      ADDITIONAL_STANDARD_DEDUCTION_single, ADDITIONAL_STANDARD_DEDUCTION_married,
      returnC10, tp1990]
  refine ⟨fun k => ⟨?_, ?_⟩, hpipe⟩
  · show gaap_round (0 + 0 + (k : ℚ)/100 + 0 + 0 + 0 + 0 + 0 + 0 + 0) = (k : ℚ)/100
    rw [show (0 : ℚ) + 0 + (k : ℚ)/100 + 0 + 0 + 0 + 0 + 0 + 0 + 0 = (k : ℚ)/100 by ring]
    exact IsCents.gaap_round_eq ⟨k, rfl⟩
  · show gaap_round (0 + 0 + (k : ℚ)/100 * (40/100)) = gaap_round ((40/100) * ((k : ℚ)/100))
    rw [show (0 : ℚ) + 0 + (k : ℚ)/100 * (40/100) = (40/100) * ((k : ℚ)/100) by ring]

-- ===========================================
-- CLAIM C1 — child tax credit phaseout
-- ===========================================

/-- C1 counterexample: at MarriedJoint, AGI $400,400, two qualifying
children, the excess is $400; the claim's `$50 × ceil(excess/$1,000)`
is $50, giving a total credit of $4,350, but the engine rounds
half-up to the nearest whole step ($0) and leaves the credit at
$4,400. -/
theorem claim_C1_counterexample :
    calculate_agi returnC1 = 400400 ∧
    (calculate_child_tax_credit returnC1).1 = 4400 ∧
    gaap_round (max (CTC_AMOUNT * 2 -
      gaap_round ((⌈((400400 : ℚ) - 400000) / 1000⌉ : ℚ) * CTC_PHASEOUT_RATE)) 0)
      = 4350 ∧
    (calculate_child_tax_credit returnC1).1 ≠
      gaap_round (max (CTC_AMOUNT * (returnC1.qualifying_children_count : ℚ) -
        gaap_round ((⌈(calculate_agi returnC1 - ctc_threshold returnC1) / 1000⌉ : ℚ) *
          CTC_PHASEOUT_RATE)) 0) := by
  have hagi : calculate_agi returnC1 = 400400 := by
    norm_num [calculate_agi, calculate_gross_income, calculate_adjustments,
      calculate_self_employment_tax, se_profit_total, calculate_tips_deduction,
      calculate_overtime_deduction, TaxReturn.total_w2_wages,
      TIPS_DEDUCTION_MAX, TIPS_PHASEOUT_SINGLE, TIPS_PHASEOUT_JOINT,
      OVERTIME_SALARY_THRESHOLD, OVERTIME_DEDUCTION_MAX_HOURLY,
      returnC1, childCTC, tp1990, gaap_round, rhu]
  have hfs : returnC1.filing_status = FilingStatus.marriedFilingJointly := rfl
  have hcn : returnC1.qualifying_children_count = 2 := by
    norm_num [TaxReturn.qualifying_children_count, returnC1, childCTC]
  have hctc : (calculate_child_tax_credit returnC1).1 = 4400 := by
    norm_num [calculate_child_tax_credit, hagi, hfs, hcn,
      CTC_AMOUNT, CTC_REFUNDABLE, CTC_PHASEOUT_JOINT, CTC_PHASEOUT_SINGLE,
      CTC_PHASEOUT_RATE, gaap_round, rhu]
  have hcount : (returnC1.qualifying_children_count : ℚ) = 2 := by
    rw [hcn]; norm_num
  have hthr : ctc_threshold returnC1 = 400000 := by
    rw [ctc_threshold, hfs]; norm_num [CTC_PHASEOUT_JOINT]
  have hceil : (⌈(2 : ℚ)/5⌉ : ℤ) = 1 := by
    rw [Int.ceil_eq_iff]
    norm_num
  have hspec : gaap_round (max (CTC_AMOUNT * 2 -
      gaap_round ((⌈((400400 : ℚ) - 400000) / 1000⌉ : ℚ) * CTC_PHASEOUT_RATE)) 0)
      = 4350 := by
    norm_num [hceil, CTC_AMOUNT, CTC_PHASEOUT_RATE, gaap_round, rhu]
  refine ⟨hagi, hctc, hspec, ?_⟩
  rw [hctc, hcount, hagi, hthr, hspec]
  norm_num

/-- C1 amended: when AGI exceeds the filing-status threshold, the engine
reduces the total credit by `$50 × (excess/$1,000 rounded half-up to an
integer, ties away from zero)` — not `ceil` — floors at zero, and caps
the refundable portion at the (possibly reduced) total. -/
theorem claim_C1_amended (tr : TaxReturn)
    (hn : 1 ≤ tr.qualifying_children_count)
    (hagi : ctc_threshold tr < calculate_agi tr) :
    (calculate_child_tax_credit tr).1 = gaap_round (ctc_reduced_total tr) ∧
    (calculate_child_tax_credit tr).2 =
      gaap_round (min (CTC_REFUNDABLE * tr.qualifying_children_count)
        (ctc_reduced_total tr)) := by
  have hn' : ¬ tr.qualifying_children_count = 0 := by omega
  have hagi' : (if tr.filing_status = FilingStatus.marriedFilingJointly
      then CTC_PHASEOUT_JOINT else CTC_PHASEOUT_SINGLE) < calculate_agi tr := hagi
  rw [calculate_child_tax_credit, if_neg hn', if_pos hagi']
  exact ⟨rfl, rfl⟩

/-- C1 witness (Scenario D): MarriedJoint, AGI $450,000, two qualifying
children — reduction $50 × 50 = $2,500, total credit $1,900, refundable
portion capped at $1,900. -/
theorem claim_C1_amended_witness :
    calculate_agi returnD = 450000 ∧
    gaap_round (rhu ((calculate_agi returnD - ctc_threshold returnD) / 1000) *
      CTC_PHASEOUT_RATE) = 2500 ∧
    (calculate_child_tax_credit returnD).1 = 1900 ∧
    (calculate_child_tax_credit returnD).2 = 1900 := by
  have hagi : calculate_agi returnD = 450000 := by
    norm_num [calculate_agi, calculate_gross_income, calculate_adjustments,
      calculate_self_employment_tax, se_profit_total, calculate_tips_deduction,
      calculate_overtime_deduction, TaxReturn.total_w2_wages,
      TIPS_DEDUCTION_MAX, TIPS_PHASEOUT_SINGLE, TIPS_PHASEOUT_JOINT,
      OVERTIME_SALARY_THRESHOLD, OVERTIME_DEDUCTION_MAX_HOURLY,
      returnD, childCTC, tp1990, gaap_round, rhu]
  have hthr : ctc_threshold returnD = 400000 := by
    rw [ctc_threshold, show returnD.filing_status = FilingStatus.marriedFilingJointly from rfl]
    norm_num [CTC_PHASEOUT_JOINT]
  have hcount : returnD.qualifying_children_count = 2 := by
    norm_num [TaxReturn.qualifying_children_count, returnD, childCTC]
  have h := claim_C1_amended returnD (by rw [hcount]; norm_num)
    (by rw [hagi, hthr]; norm_num)
  have hred : ctc_reduced_total returnD = 1900 := by
    rw [ctc_reduced_total, hagi, hthr, hcount]
    norm_num [CTC_AMOUNT, CTC_PHASEOUT_RATE, gaap_round, rhu]
  refine ⟨hagi, ?_, ?_, ?_⟩
  · rw [hagi, hthr]
    norm_num [CTC_PHASEOUT_RATE, gaap_round, rhu]
  · rw [h.1, hred]
    norm_num [gaap_round, rhu]
  · rw [h.2, hred, hcount]
    norm_num [CTC_REFUNDABLE, gaap_round, rhu]

-- ===========================================
-- CLAIM C5 — self-employment tax
-- ===========================================

/-- C5: SE tax is zero when total net profit ≤ 0; otherwise net SE
earnings are `round(profit × 0.9235)`, the Social Security portion is
`round(min(netSE, $168,600) × 0.124)`, the Medicare portion is
`round(netSE × 0.029)`, each rounded independently before summing; and
when every other adjustment input is zero the adjustments total is
exactly `round(SE tax × 0.5)`. -/
theorem claim_C5_se_tax (tr : TaxReturn) :
    (se_profit_total tr ≤ 0 → calculate_self_employment_tax tr = 0) ∧
    (0 < se_profit_total tr →
      calculate_self_employment_tax tr =
        gaap_round (min (gaap_round (se_profit_total tr * (9235/10000))) 168600
            * (124/1000)) +
          gaap_round (gaap_round (se_profit_total tr * (9235/10000)) * (29/1000))) ∧
    (tr.educator_expenses = 0 → tr.hsa_deduction = 0 →
      tr.self_employment_health_insurance = 0 → tr.sep_simple_qualified = 0 →
      tr.student_loan_interest = 0 → tr.ira_deduction = 0 →
      tr.tip_income = 0 → tr.overtime_income = 0 →
      calculate_adjustments tr =
        gaap_round (calculate_self_employment_tax tr * (1/2))) := by
  refine ⟨fun h => by rw [calculate_self_employment_tax, if_pos h], fun h => ?_, ?_⟩
  · rw [calculate_self_employment_tax, if_neg (not_le.2 h)]
    exact IsCents.gaap_round_eq
      ((gaap_round_isCents _).add (gaap_round_isCents _))
  · intro h1 h2 h3 h4 h5 h6 h7 h8
    have htips : calculate_tips_deduction tr.tip_income
        (calculate_gross_income tr) tr.filing_status = 0 := by
      rw [calculate_tips_deduction, if_pos (by rw [h7])]
    have hot : calculate_overtime_deduction tr.overtime_income
        tr.total_w2_wages tr.filing_status = 0 := by
      rw [calculate_overtime_deduction, if_pos (by rw [h8])]
    rw [calculate_adjustments, htips, hot, h1, h2, h3, h4, h5, h6]
    rw [show min (0 : ℚ) 300 = 0 by norm_num, show min (0 : ℚ) 2500 = 0 by norm_num]
    rw [show (0 : ℚ) + 0 + gaap_round (calculate_self_employment_tax tr * (1/2)) +
        0 + 0 + 0 + 0 + 0 + 0 =
        gaap_round (calculate_self_employment_tax tr * (1/2)) by ring]
    exact IsCents.gaap_round_eq (gaap_round_isCents _)

/-- C5 witness (Scenario B): net profit $40,000 — net SE earnings
$36,940, SE tax $4,580.56 + $1,071.26 = $5,651.82, adjustments
$2,825.91 = round(SE tax / 2). -/
theorem claim_C5_se_tax_witness :
    se_profit_total returnB = 40000 ∧
    calculate_self_employment_tax returnB = 565182/100 ∧
    calculate_adjustments returnB = 282591/100 := by
  have hp : se_profit_total returnB = 40000 := by
    norm_num [se_profit_total, returnB, seB, SelfEmploymentIncome.net_profit,
      SelfEmploymentIncome.gross_income, SelfEmploymentIncome.total_expenses,
      gaap_round, rhu]
  have hse : calculate_self_employment_tax returnB = 565182/100 := by
    rw [(claim_C5_se_tax returnB).2.1 (by rw [hp]; norm_num), hp]
    norm_num [gaap_round, rhu]
  have hadj : calculate_adjustments returnB =
      gaap_round (calculate_self_employment_tax returnB * (1/2)) :=
    (claim_C5_se_tax returnB).2.2 rfl rfl rfl rfl rfl rfl rfl rfl
  refine ⟨hp, hse, ?_⟩
  rw [hadj, hse]
  norm_num [gaap_round, rhu]

-- ===========================================
-- CLAIM C6 — overtime deduction cliff
-- ===========================================

/-- C6 counterexample: the claim as stated says the deduction equals
`min(overtimeIncome, $10,000)` whenever total W-2 wages are below
$100,000, but for negative overtime income the engine returns 0 while
`min(overtimeIncome, $10,000)` is negative. -/
theorem claim_C6_counterexample :
    returnC6neg.total_w2_wages < 100000 ∧
    returnC6neg.overtime_income = -1 ∧
    (calculate_final_tax returnC6neg).overtime_deduction = 0 ∧
    (calculate_final_tax returnC6neg).overtime_deduction ≠
      min returnC6neg.overtime_income 10000 := by
  have hw : returnC6neg.total_w2_wages = 0 := by
    norm_num [TaxReturn.total_w2_wages, returnC6neg, gaap_round, rhu]
  have hot : returnC6neg.overtime_income = -1 := rfl
  have hded : (calculate_final_tax returnC6neg).overtime_deduction = 0 := by
    rw [final_overtime_field, calculate_overtime_deduction,
      if_pos (by rw [hot]; norm_num)]
  refine ⟨by rw [hw]; norm_num, hot, hded, ?_⟩
  rw [hded, hot]
  norm_num

/-- C6 amended: for positive overtime income the deduction is
`round(min(overtimeIncome, $10,000))` when total W-2 wages are below
$100,000 and exactly zero (a hard cliff) once wages reach $100,000;
for non-positive overtime income it is zero. -/
theorem claim_C6_amended (tr : TaxReturn) :
    (0 < tr.overtime_income → tr.total_w2_wages < 100000 →
      (calculate_final_tax tr).overtime_deduction =
        gaap_round (min tr.overtime_income 10000)) ∧
    (tr.overtime_income ≤ 0 →
      (calculate_final_tax tr).overtime_deduction = 0) ∧
    (100000 ≤ tr.total_w2_wages →
      (calculate_final_tax tr).overtime_deduction = 0) := by
  refine ⟨fun h hw => ?_, fun h => ?_, fun hw => ?_⟩
  · rw [final_overtime_field, calculate_overtime_deduction,
      if_neg (not_le.2 h), if_neg (by rw [OVERTIME_SALARY_THRESHOLD]; exact not_le.2 hw),
      OVERTIME_DEDUCTION_MAX_HOURLY]
  · rw [final_overtime_field, calculate_overtime_deduction, if_pos h]
  · rw [final_overtime_field, calculate_overtime_deduction]
    split_ifs with h1 h2
    · rfl
    · rfl
    · exact absurd (by rw [OVERTIME_SALARY_THRESHOLD]; exact hw) h2

/-- C6 witness: the cliff pair — wages $99,999 vs $100,000, both with
$5,000 overtime income, give deductions $5,000 and $0. -/
theorem claim_C6_amended_witness :
    (calculate_final_tax returnC6a).overtime_deduction = 5000 ∧
    (calculate_final_tax returnC6b).overtime_deduction = 0 := by
  have hwa : returnC6a.total_w2_wages = 99999 := by
    norm_num [TaxReturn.total_w2_wages, returnC6a, gaap_round, rhu]
  have hwb : returnC6b.total_w2_wages = 100000 := by
    norm_num [TaxReturn.total_w2_wages, returnC6b, gaap_round, rhu]
  constructor
  · rw [(claim_C6_amended returnC6a).1 (by norm_num [returnC6a])
      (by rw [hwa]; norm_num)]
    norm_num [returnC6a, gaap_round, rhu]
  · exact (claim_C6_amended returnC6b).2.2 (by rw [hwb])

-- ===========================================
-- CLAIM C7 — earned income credit
-- ===========================================

/-- C7 counterexample: the claim as stated gives a positive credit
whenever AGI is at most the ceiling, but the engine also requires
positive earned income.  A return with no income at all has AGI 0 ≤
ceiling $17,640, so the claim's formula gives the full $632, while the
engine returns 0. -/
theorem claim_C7_counterexample :
    eic_earned_income returnC7zero = 0 ∧
    calculate_agi returnC7zero = 0 ∧
    (eic_params returnC7zero).1 = 17640 ∧
    gaap_round ((eic_params returnC7zero).2 *
      (1 - calculate_agi returnC7zero / (eic_params returnC7zero).1)) = 632 ∧
    (calculate_credits returnC7zero).earned_income_credit = 0 ∧
    (calculate_credits returnC7zero).earned_income_credit ≠
      gaap_round ((eic_params returnC7zero).2 *
        (1 - calculate_agi returnC7zero / (eic_params returnC7zero).1)) := by
  have hearned : eic_earned_income returnC7zero = 0 := by
    norm_num [eic_earned_income, TaxReturn.total_w2_wages, se_profit_total,
      returnC7zero, gaap_round, rhu]
  have hagi : calculate_agi returnC7zero = 0 := by
    norm_num [calculate_agi, calculate_gross_income, calculate_adjustments,
      calculate_self_employment_tax, se_profit_total, calculate_tips_deduction,
      calculate_overtime_deduction, TaxReturn.total_w2_wages,
      returnC7zero, tp1990, gaap_round, rhu]
  have hparams : eic_params returnC7zero = (17640, 632) := by
    rw [eic_params, show returnC7zero.filing_status = FilingStatus.single from rfl,
      show returnC7zero.qualifying_children_count = 0 from rfl]
    norm_num [fs_single_ne_mfj]
  have heic : (calculate_credits returnC7zero).earned_income_credit = 0 := by
    rw [credits_eic_field, calculate_eic, if_pos (by rw [hearned])]
  have hformula : gaap_round ((eic_params returnC7zero).2 *
      (1 - calculate_agi returnC7zero / (eic_params returnC7zero).1)) = 632 := by
    rw [hagi, hparams]
    norm_num [gaap_round, rhu]
  refine ⟨hearned, hagi, by rw [hparams], hformula, heic, ?_⟩
  rw [heic, hformula]
  norm_num

/-- C7 amended: the engine's EIC requires positive earned income
(W-2 wages + self-employment profit); given that, the credit is
`round(maxCredit × (1 − AGI/ceiling))` when AGI ≤ ceiling and zero when
AGI exceeds the ceiling, with the (ceiling, maxCredit) pair from the
engine's child-count/filing-status table; with earned income ≤ 0 the
credit is zero regardless of AGI. -/
theorem claim_C7_amended (tr : TaxReturn) :
    (eic_earned_income tr ≤ 0 → calculate_eic tr = 0) ∧
    (0 < eic_earned_income tr → (eic_params tr).1 < calculate_agi tr →
      calculate_eic tr = 0) ∧
    (0 < eic_earned_income tr → calculate_agi tr ≤ (eic_params tr).1 →
      calculate_eic tr =
        gaap_round ((eic_params tr).2 * (1 - calculate_agi tr / (eic_params tr).1))) := by
  refine ⟨fun h => by rw [calculate_eic, if_pos h], fun h hc => ?_, fun h hc => ?_⟩
  · rw [calculate_eic, if_neg (not_le.2 h), if_pos hc]
  · rw [calculate_eic, if_neg (not_le.2 h), if_neg (not_lt.2 hc)]

/-- C7 witness: single filer, $10,000 wages, no children — AGI $10,000
is under the $17,640 ceiling, and the credit is
round(632 × (1 − 10000/17640)) = $273.72. -/
theorem claim_C7_amended_witness :
    0 < eic_earned_income returnC7b ∧
    calculate_agi returnC7b = 10000 ∧
    calculate_eic returnC7b =
      gaap_round ((eic_params returnC7b).2 *
        (1 - calculate_agi returnC7b / (eic_params returnC7b).1)) ∧
    calculate_eic returnC7b = 27372/100 := by
  have hearned : eic_earned_income returnC7b = 10000 := by
    norm_num [eic_earned_income, TaxReturn.total_w2_wages, se_profit_total,
      returnC7b, gaap_round, rhu]
  have hagi : calculate_agi returnC7b = 10000 := by
    norm_num [calculate_agi, calculate_gross_income, calculate_adjustments,
      calculate_self_employment_tax, se_profit_total, calculate_tips_deduction,
      calculate_overtime_deduction, TaxReturn.total_w2_wages,
      TIPS_DEDUCTION_MAX, TIPS_PHASEOUT_SINGLE, TIPS_PHASEOUT_JOINT,
      OVERTIME_SALARY_THRESHOLD, OVERTIME_DEDUCTION_MAX_HOURLY,
      returnC7b, tp1990, gaap_round, rhu]
  have hparams : eic_params returnC7b = (17640, 632) := by
    rw [eic_params, show returnC7b.filing_status = FilingStatus.single from rfl,
      show returnC7b.qualifying_children_count = 0 from rfl]
    norm_num [fs_single_ne_mfj]
  have h := (claim_C7_amended returnC7b).2.2 (by rw [hearned]; norm_num)
    (by rw [hagi, hparams]; norm_num)
  refine ⟨by rw [hearned]; norm_num, hagi, h, ?_⟩
  rw [h, hagi, hparams]
  norm_num [gaap_round, rhu]

-- ===========================================
-- CLAIM C3 — settlement
-- ===========================================

theorem tax_after_nonrefundable_nonneg (tr : TaxReturn) :
    0 ≤ tax_after_nonrefundable tr := le_max_right _ _

theorem tax_after_nonrefundable_cents (tr : TaxReturn) :
    IsCents (tax_after_nonrefundable tr) := by
  rw [tax_after_nonrefundable]
  exact ((gaap_round_isCents _).sub (gaap_round_isCents _)).max_cents IsCents.zero

theorem total_payments_cents (tr : TaxReturn)
    (h1 : IsCents tr.estimated_payments)
    (h2 : IsCents tr.amount_paid_with_extension) :
    IsCents (total_payments_of tr) := by
  rw [total_payments_of]
  exact (((gaap_round_isCents _).add h1).add h2).add (gaap_round_isCents _)

/-- C3 amended: writing `t` for tax after nonrefundable credits and `p`
for total payments as they appear in the output map, the refund equation
`refund = max(p − t, 0)` and settlement exclusivity
(`refund = 0 ∨ owed = 0`) hold for every return; the owed equation
`owed = max(t − p, 0)` holds whenever the two raw payment inputs
(estimated payments, extension payment) are whole-cent amounts — the
engine's other payment components are rounded before use. -/
theorem claim_C3_amended (tr : TaxReturn) :
    (calculate_final_tax tr).refund_amount =
      max ((calculate_final_tax tr).total_payments -
        (calculate_final_tax tr).tax_after_credits) 0 ∧
    ((calculate_final_tax tr).refund_amount = 0 ∨
      (calculate_final_tax tr).amount_owed = 0) ∧
    (IsCents tr.estimated_payments → IsCents tr.amount_paid_with_extension →
      (calculate_final_tax tr).amount_owed =
        max ((calculate_final_tax tr).tax_after_credits -
          (calculate_final_tax tr).total_payments) 0) := by
  have ht0 := tax_after_nonrefundable_nonneg tr
  have htc := tax_after_nonrefundable_cents tr
  have htr : (calculate_final_tax tr).tax_after_credits = tax_after_nonrefundable tr := by
    rw [final_tax_after_field, IsCents.gaap_round_eq htc]
  rcases le_or_lt (tax_after_nonrefundable tr) (total_payments_of tr) with hle | hlt
  · have hs : settle (tax_after_nonrefundable tr) (total_payments_of tr) =
        (total_payments_of tr - tax_after_nonrefundable tr, 0) := by
      rw [settle, if_pos hle]
    have hpt : tax_after_nonrefundable tr ≤ gaap_round (total_payments_of tr) := by
      calc tax_after_nonrefundable tr
          = gaap_round (tax_after_nonrefundable tr) := (IsCents.gaap_round_eq htc).symm
        _ ≤ gaap_round (total_payments_of tr) := gaap_round_mono hle
    have hrefund : (calculate_final_tax tr).refund_amount =
        gaap_round (total_payments_of tr) - tax_after_nonrefundable tr := by
      rw [final_refund_field, hs]
      exact gaap_round_sub_cents htc ht0 hle
    have howed : (calculate_final_tax tr).amount_owed = 0 := by
      rw [final_owed_field, hs]
      exact IsCents.gaap_round_eq IsCents.zero
    refine ⟨?_, Or.inr howed, fun hc1 hc2 => ?_⟩
    · rw [hrefund, htr, final_payments_field, max_eq_left (by linarith)]
    · rw [howed, htr, final_payments_field,
        max_eq_right (by linarith)]
  · have hs : settle (tax_after_nonrefundable tr) (total_payments_of tr) =
        (0, tax_after_nonrefundable tr - total_payments_of tr) := by
      rw [settle, if_neg (not_le.2 hlt)]
    have hpt : gaap_round (total_payments_of tr) ≤ tax_after_nonrefundable tr := by
      calc gaap_round (total_payments_of tr)
          ≤ gaap_round (tax_after_nonrefundable tr) := gaap_round_mono hlt.le
        _ = tax_after_nonrefundable tr := IsCents.gaap_round_eq htc
    have hrefund : (calculate_final_tax tr).refund_amount = 0 := by
      rw [final_refund_field, hs]
      exact IsCents.gaap_round_eq IsCents.zero
    refine ⟨?_, Or.inl hrefund, fun hc1 hc2 => ?_⟩
    · rw [hrefund, htr, final_payments_field, max_eq_right (by linarith)]
    · have hpc := total_payments_cents tr hc1 hc2
      have hp : (calculate_final_tax tr).total_payments = total_payments_of tr := by
        rw [final_payments_field, IsCents.gaap_round_eq hpc]
      rw [final_owed_field, hs, htr, hp,
        IsCents.gaap_round_eq (htc.sub hpc), max_eq_left (by linarith)]

/-- C3 witness (Scenario A): the amended settlement equations at the
concrete return with $6,000 withheld against $4,016 of tax. -/
theorem claim_C3_amended_witness :
    (calculate_final_tax returnA).refund_amount =
      max ((calculate_final_tax returnA).total_payments -
        (calculate_final_tax returnA).tax_after_credits) 0 ∧
    ((calculate_final_tax returnA).refund_amount = 0 ∨
      (calculate_final_tax returnA).amount_owed = 0) ∧
    (calculate_final_tax returnA).amount_owed =
      max ((calculate_final_tax returnA).tax_after_credits -
        (calculate_final_tax returnA).total_payments) 0 :=
  ⟨(claim_C3_amended returnA).1, (claim_C3_amended returnA).2.1,
    (claim_C3_amended returnA).2.2 ⟨0, by norm_num [returnA]⟩
      ⟨0, by norm_num [returnA]⟩⟩

set_option maxHeartbeats 2000000 in
/-- C3 counterexample: with a half-cent estimated payment ($0.005)
against one cent of tax, the output map rounds the half-cent payment up
to $0.01 (so `total_payments = tax_after_credits = $0.01`) yet also
rounds the raw owed amount $0.005 up to $0.01: the published
`amount_owed` is $0.01 while `max(tax_after_credits − total_payments, 0)`
is $0. -/
theorem claim_C3_counterexample :
    (calculate_final_tax returnC3tie).tax_after_credits = 1/100 ∧
    (calculate_final_tax returnC3tie).total_payments = 1/100 ∧
    (calculate_final_tax returnC3tie).refund_amount = 0 ∧
    (calculate_final_tax returnC3tie).amount_owed = 1/100 ∧
    (calculate_final_tax returnC3tie).amount_owed ≠
      max ((calculate_final_tax returnC3tie).tax_after_credits -
        (calculate_final_tax returnC3tie).total_payments) 0 := by
  have h : (calculate_final_tax returnC3tie).tax_after_credits = 1/100 ∧
      (calculate_final_tax returnC3tie).total_payments = 1/100 ∧
      (calculate_final_tax returnC3tie).refund_amount = 0 ∧
      (calculate_final_tax returnC3tie).amount_owed = 1/100 := by
    norm_num [calculate_final_tax, settle,
      tax_after_nonrefundable, total_payments_of, calculate_credits,
      calculate_child_tax_credit, calculate_eic, eic_params, eic_earned_income,
      calculate_tax_liability, calculate_bracket_tax, bracket_tax_aux,
      calculate_capital_gains_tax, calculate_niit,
      calculate_additional_medicare_tax, calculate_taxable_income,
      calculate_qbi_deduction, calculate_deduction,
      calculate_standard_deduction,
      calculate_itemized_deductions, calculate_agi, calculate_adjustments,
      calculate_self_employment_tax, se_profit_total, calculate_tips_deduction,
      calculate_overtime_deduction, calculate_gross_income,
      TaxReturn.total_w2_wages, TaxReturn.total_federal_withheld,
      TaxReturn.qualifying_children_count, TaxReturn.other_dependents_count,
      TaxReturn.is_senior, TaxpayerInfo.age_at_year_end,
      TaxCredits.total_nonrefundable, TaxCredits.total_refundable,
      std_base_single, brackets_lookup_single, bracketsSingle, gaap_round, rhu,
      fs_single_ne_mfj,
      CTC_AMOUNT, CTC_REFUNDABLE, CTC_PHASEOUT_SINGLE, CTC_PHASEOUT_JOINT,
      CTC_PHASEOUT_RATE, TIPS_DEDUCTION_MAX, TIPS_PHASEOUT_SINGLE,
      TIPS_PHASEOUT_JOINT, OVERTIME_DEDUCTION_MAX_HOURLY,
      OVERTIME_SALARY_THRESHOLD, SENIOR_DEDUCTION,
      ADDITIONAL_STANDARD_DEDUCTION_single, ADDITIONAL_STANDARD_DEDUCTION_married,
      returnC3tie, tp1990]
  refine ⟨h.1, h.2.1, h.2.2.1, h.2.2.2, ?_⟩
  rw [h.1, h.2.1, h.2.2.2]
  norm_num

-- ===========================================
-- CLAIM C8 — lemmas about the bracket loop
-- ===========================================

theorem bracket_tax_aux_nonneg {prev : ℚ} {L : List (Option ℚ × ℚ)}
    (hL : BracketChain (1/10) prev L) (x : ℚ) :
    0 ≤ bracket_tax_aux x prev L := by
  induction hL with
  | top prev r hr =>
    simp only [bracket_tax_aux]
    split_ifs with h1 h2
    · exact le_refl 0
    · exact gaap_round_nonneg _ (mul_nonneg (by linarith) (by linarith))
    · exact le_refl 0
  | cons prev t r rest hr hlt hrest ih =>
    simp only [bracket_tax_aux]
    split_ifs with h1 h2
    · exact le_refl 0
    · exact add_nonneg (gaap_round_nonneg _ (mul_nonneg (by linarith) (by linarith))) ih
    · exact add_nonneg (le_refl 0) ih

theorem bracket_tax_aux_mono {prev : ℚ} {L : List (Option ℚ × ℚ)}
    (hL : BracketChain (1/10) prev L) {x y : ℚ} (hxy : x ≤ y) :
    bracket_tax_aux x prev L ≤ bracket_tax_aux y prev L := by
  induction hL with
  | top prev r hr =>
    simp only [bracket_tax_aux]
    by_cases hy : y ≤ prev
    · rw [if_pos (le_trans hxy hy), if_pos hy]
    · by_cases hx' : x ≤ prev
      · rw [if_pos hx', if_neg hy]
        split_ifs with h3
        · exact gaap_round_nonneg _ (mul_nonneg h3.le (by linarith))
        · exact le_refl 0
      · rw [if_neg hx', if_neg hy,
          if_pos (by linarith [not_le.1 hx'] : 0 < x - prev),
          if_pos (by linarith [not_le.1 hy] : 0 < y - prev)]
        exact gaap_round_mono
          (mul_le_mul_of_nonneg_right (by linarith) (by linarith))
  | cons prev t r rest hr hlt hrest ih =>
    have hnn := bracket_tax_aux_nonneg hrest y
    simp only [bracket_tax_aux]
    by_cases hy : y ≤ prev
    · rw [if_pos (le_trans hxy hy), if_pos hy]
    · by_cases hx' : x ≤ prev
      · rw [if_pos hx', if_neg hy]
        refine add_nonneg ?_ hnn
        split_ifs with h3
        · exact gaap_round_nonneg _ (mul_nonneg h3.le (by linarith))
        · exact le_refl 0
      · rw [if_neg hx', if_neg hy]
        have hminx : 0 < min x t - prev := by
          rcases le_total x t with h | h
          · rw [min_eq_left h]; linarith [not_le.1 hx']
          · rw [min_eq_right h]; linarith
        have hminy : 0 < min y t - prev := by
          rcases le_total y t with h | h
          · rw [min_eq_left h]; linarith [not_le.1 hy]
          · rw [min_eq_right h]; linarith
        rw [if_pos hminx, if_pos hminy]
        refine add_le_add (gaap_round_mono ?_) ih
        have hmin : min x t ≤ min y t := min_le_min hxy (le_refl t)
        exact mul_le_mul_of_nonneg_right (by linarith) (by linarith)

theorem bracket_exact_nonneg {prev : ℚ} {L : List (Option ℚ × ℚ)}
    (hL : BracketChain (1/10) prev L) (x : ℚ) :
    0 ≤ bracket_exact x prev L := by
  induction hL with
  | top prev r hr =>
    simp only [bracket_exact]
    split_ifs with h1
    · exact le_refl 0
    · exact mul_nonneg (by linarith [not_le.1 h1]) (by linarith)
  | cons prev t r rest hr hlt hrest ih =>
    simp only [bracket_exact]
    split_ifs with h1
    · exact le_refl 0
    · have hmin : 0 ≤ min x t - prev := by
        rcases le_total x t with h | h
        · rw [min_eq_left h]; linarith [not_le.1 h1]
        · rw [min_eq_right h]; linarith
      exact add_nonneg (mul_nonneg hmin (by linarith)) ih

/-- Under a chain, `bracket_exact` vanishes at or below `prev`. -/
theorem bracket_exact_of_le {prev : ℚ} {L : List (Option ℚ × ℚ)}
    (hL : BracketChain (1/10) prev L) {z : ℚ} (h : z ≤ prev) :
    bracket_exact z prev L = 0 := by
  cases hL <;> simp [bracket_exact, if_pos h]

/-- Lower bound: the exact bracket sum is at least the minimum rate
times the amount above `prev`. -/
theorem bracket_exact_lb {prev : ℚ} {L : List (Option ℚ × ℚ)}
    (hL : BracketChain (1/10) prev L) {z : ℚ} (hz : prev ≤ z) :
    (1/10) * (z - prev) ≤ bracket_exact z prev L := by
  induction hL with
  | top prev r hr =>
    simp only [bracket_exact]
    split_ifs with h1
    · have : z = prev := le_antisymm h1 hz
      rw [this]; norm_num
    · nlinarith [not_le.1 h1]
  | cons prev t r rest hr hlt hrest ih =>
    simp only [bracket_exact]
    split_ifs with h1
    · have : z = prev := le_antisymm h1 hz
      rw [this]; norm_num
    · rcases le_total z t with h | h
      · rw [min_eq_left h, bracket_exact_of_le hrest h]
        nlinarith [not_le.1 h1]
      · rw [min_eq_right h]
        have htail := ih h
        nlinarith

/-- Moving taxable income up by a whole dollar adds at least the minimum
rate to the exact bracket sum. -/
theorem bracket_exact_diff {prev : ℚ} {L : List (Option ℚ × ℚ)}
    (hL : BracketChain (1/10) prev L) {x : ℚ} (hx : prev ≤ x) :
    bracket_exact x prev L + 1/10 ≤ bracket_exact (x+1) prev L := by
  induction hL with
  | top prev r hr =>
    simp only [bracket_exact]
    rw [if_neg (by linarith : ¬ x + 1 ≤ prev)]
    split_ifs with h1
    · have : x = prev := le_antisymm h1 hx
      rw [this]; nlinarith
    · nlinarith
  | cons prev t r rest hr hlt hrest ih =>
    simp only [bracket_exact]
    rw [if_neg (by linarith : ¬ x + 1 ≤ prev)]
    rcases le_or_lt (x+1) t with hx1 | hx1
    · -- the dollar stays inside this bracket
      rw [min_eq_left hx1, bracket_exact_of_le hrest hx1]
      split_ifs with h1
      · have hxp : x = prev := le_antisymm h1 hx
        rw [hxp]; nlinarith
      · rw [min_eq_left (by linarith : x ≤ t), bracket_exact_of_le hrest
          (by linarith : x ≤ t)]
        nlinarith
    · rw [min_eq_right (by linarith : t ≤ x + 1)]
      rcases le_or_lt t x with htx | htx
      · -- both x and x+1 are past this bracket
        rw [if_neg (by linarith : ¬ x ≤ prev), min_eq_right htx]
        have := ih htx
        linarith
      · -- x < t < x + 1: the dollar straddles the boundary
        have htail := bracket_exact_lb hrest (by linarith : t ≤ x + 1)
        split_ifs with h1
        · have hxp : x = prev := le_antisymm h1 hx
          nlinarith
        · rw [min_eq_left htx.le, bracket_exact_of_le hrest htx.le]
          nlinarith [not_le.1 h1]

/-- The rounded bracket loop is within `length/200` above the exact sum. -/
theorem bracket_tax_aux_le_exact {prev : ℚ} {L : List (Option ℚ × ℚ)}
    (hL : BracketChain (1/10) prev L) (x : ℚ) :
    bracket_tax_aux x prev L ≤ bracket_exact x prev L + (L.length : ℚ) / 200 := by
  induction hL with
  | top prev r hr =>
    simp only [bracket_tax_aux, bracket_exact, List.length]
    split_ifs with h1 h2
    · norm_num
    · have := gaap_round_le ((x - prev) * r)
      push_cast
      linarith
    · push_cast
      nlinarith [not_le.1 h1]
  | cons prev t r rest hr hlt hrest ih =>
    simp only [bracket_tax_aux, bracket_exact, List.length]
    split_ifs with h1 h2
    · have h0 : (0 : ℚ) ≤ (rest.length : ℚ) := Nat.cast_nonneg _
      push_cast
      linarith
    · have := gaap_round_le ((min x t - prev) * r)
      push_cast
      linarith
    · -- the head contribution guard is false: min x t ≤ prev, impossible
      -- when prev < x and prev < t, so this branch needs min x t - prev ≤ 0
      have hmin : 0 < min x t - prev := by
        rcases le_total x t with h | h
        · rw [min_eq_left h]; linarith [not_le.1 h1]
        · rw [min_eq_right h]; linarith
      exact absurd hmin h2

/-- The rounded bracket loop is within `length/200` below the exact sum. -/
theorem bracket_exact_le_aux {prev : ℚ} {L : List (Option ℚ × ℚ)}
    (hL : BracketChain (1/10) prev L) (x : ℚ) :
    bracket_exact x prev L - (L.length : ℚ) / 200 ≤ bracket_tax_aux x prev L := by
  induction hL with
  | top prev r hr =>
    simp only [bracket_tax_aux, bracket_exact, List.length]
    split_ifs with h1 h2
    · norm_num
    · have := le_gaap_round ((x - prev) * r)
      push_cast
      linarith
    · push_cast
      nlinarith [not_le.1 h1, not_lt.1 h2]
  | cons prev t r rest hr hlt hrest ih =>
    simp only [bracket_tax_aux, bracket_exact, List.length]
    split_ifs with h1 h2
    · have h0 : (0 : ℚ) ≤ (rest.length : ℚ) := Nat.cast_nonneg _
      push_cast
      linarith
    · have := le_gaap_round ((min x t - prev) * r)
      push_cast
      linarith
    · have hmin : 0 < min x t - prev := by
        rcases le_total x t with h | h
        · rw [min_eq_left h]; linarith [not_le.1 h1]
        · rw [min_eq_right h]; linarith
      exact absurd hmin h2

-- Well-formedness of each concrete 2025 schedule.

theorem chain_single : BracketChain (1/10) 0 bracketsSingle := by
  rw [bracketsSingle]
  exact .cons _ _ _ _ (by norm_num) (by norm_num)
    (.cons _ _ _ _ (by norm_num) (by norm_num)
      (.cons _ _ _ _ (by norm_num) (by norm_num)
        (.cons _ _ _ _ (by norm_num) (by norm_num)
          (.cons _ _ _ _ (by norm_num) (by norm_num)
            (.cons _ _ _ _ (by norm_num) (by norm_num)
              (.top _ _ (by norm_num)))))))

theorem chain_mfj : BracketChain (1/10) 0 bracketsMFJ := by
  rw [bracketsMFJ]
  exact .cons _ _ _ _ (by norm_num) (by norm_num)
    (.cons _ _ _ _ (by norm_num) (by norm_num)
      (.cons _ _ _ _ (by norm_num) (by norm_num)
        (.cons _ _ _ _ (by norm_num) (by norm_num)
          (.cons _ _ _ _ (by norm_num) (by norm_num)
            (.cons _ _ _ _ (by norm_num) (by norm_num)
              (.top _ _ (by norm_num)))))))

theorem chain_mfs : BracketChain (1/10) 0 bracketsMFS := by
  rw [bracketsMFS]
  exact .cons _ _ _ _ (by norm_num) (by norm_num)
    (.cons _ _ _ _ (by norm_num) (by norm_num)
      (.cons _ _ _ _ (by norm_num) (by norm_num)
        (.cons _ _ _ _ (by norm_num) (by norm_num)
          (.cons _ _ _ _ (by norm_num) (by norm_num)
            (.cons _ _ _ _ (by norm_num) (by norm_num)
              (.top _ _ (by norm_num)))))))

theorem chain_hoh : BracketChain (1/10) 0 bracketsHOH := by
  rw [bracketsHOH]
  exact .cons _ _ _ _ (by norm_num) (by norm_num)
    (.cons _ _ _ _ (by norm_num) (by norm_num)
      (.cons _ _ _ _ (by norm_num) (by norm_num)
        (.cons _ _ _ _ (by norm_num) (by norm_num)
          (.cons _ _ _ _ (by norm_num) (by norm_num)
            (.cons _ _ _ _ (by norm_num) (by norm_num)
              (.top _ _ (by norm_num)))))))

/-- Non-decreasing: the bracket tax with the `x ≤ 0` guard is monotone
on nonnegative incomes. -/
theorem bracket_total_mono {L : List (Option ℚ × ℚ)}
    (hL : BracketChain (1/10) 0 L) {x y : ℚ} (hxy : x ≤ y) :
    bracket_total x L ≤ bracket_total y L := by
  rw [bracket_total, bracket_total]
  by_cases hy : y ≤ 0
  · rw [if_pos (le_trans hxy hy), if_pos hy]
  · by_cases hx' : x ≤ 0
    · rw [if_pos hx', if_neg hy]
      exact gaap_round_nonneg _ (bracket_tax_aux_nonneg hL y)
    · rw [if_neg hx', if_neg hy]
      exact gaap_round_mono (bracket_tax_aux_mono hL hxy)

/-- Strict increase over a whole-dollar step, despite per-bracket
rounding: with at most 7 brackets, the rounding loss (at most
`2·(7+1)/200`) cannot swallow the exact gain of at least `1/10`. -/
theorem bracket_total_strict {L : List (Option ℚ × ℚ)}
    (hL : BracketChain (1/10) 0 L) (hlen : (L.length : ℚ) ≤ 7) {x : ℚ}
    (hx : 0 ≤ x) : bracket_total x L < bracket_total (x+1) L := by
  have hlen0 : (0 : ℚ) ≤ (L.length : ℚ) := Nat.cast_nonneg _
  rw [bracket_total, bracket_total, if_neg (by linarith : ¬ x + 1 ≤ 0)]
  rcases le_or_lt x 0 with h0 | h0
  · have hx0 : x = 0 := le_antisymm h0 hx
    rw [if_pos h0]
    have hE := bracket_exact_lb hL (by linarith : (0:ℚ) ≤ x + 1)
    have hS := bracket_exact_le_aux hL (x+1)
    have hg := le_gaap_round (bracket_tax_aux (x+1) 0 L)
    rw [hx0] at hE hS hg ⊢
    norm_num at hE hS hg ⊢
    linarith
  · rw [if_neg (not_le.2 h0)]
    have hd := bracket_exact_diff hL (le_of_lt h0)
    have h1 := bracket_tax_aux_le_exact hL x
    have h2 := bracket_exact_le_aux hL (x+1)
    have h3 := gaap_round_le (bracket_tax_aux x 0 L)
    have h4 := le_gaap_round (bracket_tax_aux (x+1) 0 L)
    linarith

-- ===========================================
-- CLAIM C8 — bracket monotonicity
-- ===========================================

/-- C8 counterexample: entering a new bracket with a positive marginal
rate does not force a strict increase.  At taxable income $11,600 the
Single bracket tax is $1,160; one cent later the income has entered the
12% bracket, yet the bracket's rounded contribution
`round($0.01 × 0.12) = $0.00` leaves the tax at $1,160. -/
theorem claim_C8_counterexample :
    (11600 : ℚ) < 11600 + 1/100 ∧
    calculate_bracket_tax 11600 .single = 1160 ∧
    calculate_bracket_tax (11600 + 1/100) .single = 1160 := by
  refine ⟨by norm_num, ?_, ?_⟩
  · norm_num [calculate_bracket_tax, brackets_lookup_single, bracketsSingle,
      bracket_tax_aux, gaap_round, rhu]
  · norm_num [calculate_bracket_tax, brackets_lookup_single, bracketsSingle,
      bracket_tax_aux, gaap_round, rhu]

/-- C8 amended: for a fixed filing status the bracket tax is
non-decreasing in taxable income (exactly as claimed), and is strictly
increasing for any whole-dollar (or larger) increase of taxable income —
strictness over arbitrarily small steps into a new bracket fails because
each bracket's contribution is rounded to cents before accumulating. -/
theorem claim_C8_amended (fs : FilingStatus) (x y : ℚ) (hx : 0 ≤ x)
    (hxy : x ≤ y) :
    calculate_bracket_tax x fs ≤ calculate_bracket_tax y fs ∧
    (x + 1 ≤ y → calculate_bracket_tax x fs < calculate_bracket_tax y fs) := by
  have heq : ∀ (z : ℚ) (g : FilingStatus), calculate_bracket_tax z g =
      bracket_total z (dictGet TAX_BRACKETS_2025 g.value bracketsSingle) :=
    fun z g => rfl
  have main : ∀ L, BracketChain (1/10) 0 L → (L.length : ℚ) ≤ 7 →
      bracket_total x L ≤ bracket_total y L ∧
      (x + 1 ≤ y → bracket_total x L < bracket_total y L) := by
    intro L hL hlen
    refine ⟨bracket_total_mono hL hxy, fun hst => ?_⟩
    calc bracket_total x L < bracket_total (x+1) L :=
          bracket_total_strict hL hlen hx
      _ ≤ bracket_total y L := bracket_total_mono hL hst
  cases fs
  · rw [heq, heq, brackets_lookup_single]
    exact main _ chain_single (by norm_num [bracketsSingle])
  · rw [heq, heq, brackets_lookup_mfj]
    exact main _ chain_mfj (by norm_num [bracketsMFJ])
  · rw [heq, heq, brackets_lookup_mfs]
    exact main _ chain_mfs (by norm_num [bracketsMFS])
  · rw [heq, heq, brackets_lookup_hoh]
    exact main _ chain_hoh (by norm_num [bracketsHOH])
  · rw [heq, heq, brackets_lookup_widow]
    exact main _ chain_single (by norm_num [bracketsSingle])

/-- C8 witness: monotone and strictly increasing over the dollar step
from $30,000 to $30,001 of Single taxable income. -/
theorem claim_C8_amended_witness :
    calculate_bracket_tax 30000 .single ≤ calculate_bracket_tax 30001 .single ∧
    calculate_bracket_tax 30000 .single < calculate_bracket_tax 30001 .single :=
  ⟨(claim_C8_amended .single 30000 30001 (by norm_num) (by norm_num)).1,
    (claim_C8_amended .single 30000 30001 (by norm_num) (by norm_num)).2
      (by norm_num)⟩

end GonzalesTax
